import Mathlib

/-!
# BrewLog — verification of the serialization / migration subsystem

Shallow embedding of the parts of `brewlog` (src/brewlog/src/brewlog/) that
the round-trip, null-omission, version-gate, allow-list, path-validation and
date-validation properties are about:

* `serialise.py`  — `row_to_brew_dict`, `GRIND_ENUM`, `validate_import_path`
* `db.py`         — `insert_brew_dict`, `UPDATABLE_COLUMNS`, `update_brew`,
                    the `brews` table column set from `_init_schema`
* `models.py`     — `BrewInput.validate_date`, `DATE_PATTERN`
* `commands/import_.py` — the import pipeline and `_V04_REQUIRED_MSG`
* `commands/export.py`  — the document-building / grind-warning loop

Modelling conventions:
* Python `dict`s are association lists; a key present with value `None`
  is `Leaf.null`, an absent key is absence from the list.
* SQLite rows are a typed structure (`Row`): a NULL cell is `none`;
  the `coffee_origin` TEXT column stores `json.dumps` of a string list and
  is modelled as the list itself (`json.loads ∘ json.dumps` is the identity
  on lists of strings, so the encoding is dropped, not the content).
* YAML/JSON numbers are `Rat` (decimal literals are exact rationals;
  JSON-schema `integer` accepts any number with zero fractional part,
  i.e. denominator 1).
-/

namespace BrewSpec

/-! ## String containment (used for the error-message contracts) -/

/-- `startsWithB n l`: the char list `n` is an initial segment of `l`. -/
def startsWithB : List Char → List Char → Bool
  | [], _ => true
  | _ :: _, [] => false
  | a :: as, b :: bs => a == b && startsWithB as bs

/-- `containsB n l`: the char list `n` occurs contiguously inside `l`. -/
def containsB (n : List Char) : List Char → Bool
  | [] => startsWithB n []
  | c :: t => startsWithB n (c :: t) || containsB n t

/-- `strContains hay needle`: `needle` occurs as a substring of `hay`. -/
def strContains (hay needle : String) : Bool :=
  containsB needle.data hay.data

lemma string_data_append (a b : String) : (a ++ b).data = a.data ++ b.data := by
  cases a; cases b; rfl

lemma startsWithB_append (n rest : List Char) : startsWithB n (n ++ rest) = true := by
  induction n with
  | nil => rfl
  | cons a as ih => simp [startsWithB, ih]

lemma containsB_of_startsWith {n l : List Char} (h : startsWithB n l = true) :
    containsB n l = true := by
  cases l with
  | nil => simpa [containsB] using h
  | cons c t => simp [containsB, h]

lemma containsB_append_left (a : List Char) {n l : List Char}
    (h : containsB n l = true) : containsB n (a ++ l) = true := by
  induction a with
  | nil => simpa using h
  | cons c t ih => simp [containsB, ih]

/-- Any string of the form `a ++ n ++ b` contains `n`. -/
lemma strContains_append_mid (a n b : String) : strContains (a ++ n ++ b) n = true := by
  unfold strContains
  have h : (a ++ n ++ b).data = a.data ++ (n.data ++ b.data) := by
    rw [string_data_append, string_data_append, List.append_assoc]
  rw [h]
  exact containsB_append_left _ (containsB_of_startsWith (startsWithB_append _ _))

/-! ## Document values

A parsed BrewSpec brew object is at most three levels deep
(brew → coffee/water/equipment/result → result.ratings), so dict values are
stratified: `Leaf` scalars, `SubVal` one level down, `TopVal` at brew level. -/

/-- A scalar value of a parsed YAML/JSON document or of a DB cell. -/
inductive Leaf where
  | null
  | str (s : String)
  | num (q : Rat)
  | strList (l : List String)
  deriving DecidableEq, Repr

/-- A value inside a first-level sub-object (`coffee`, `result`, …):
either a scalar or a nested object (`result.ratings`). -/
inductive SubVal where
  | leaf (v : Leaf)
  | obj (fields : List (String × Leaf))
  deriving DecidableEq, Repr

/-- A value at brew level: a scalar or a sub-object. -/
inductive TopVal where
  | leaf (v : Leaf)
  | obj (fields : List (String × SubVal))
  deriving DecidableEq, Repr

/-- A brew object as a Python dict: an association list. -/
abbrev BrewDict := List (String × TopVal)

/-- `dict.get(k)` at brew level (`None` for an absent key is `none` here). -/
def dictGet (bd : BrewDict) (k : String) : Option TopVal :=
  (bd.find? (fun p => p.1 == k)).map (·.2)

/-- `dict.get(k)` inside a first-level sub-object. -/
def subGet (l : List (String × SubVal)) (k : String) : Option SubVal :=
  (l.find? (fun p => p.1 == k)).map (·.2)

/-- `dict.get(k)` inside `result.ratings`. -/
def leafGet (l : List (String × Leaf)) (k : String) : Option Leaf :=
  (l.find? (fun p => p.1 == k)).map (·.2)

lemma dictGet_nil (k : String) : dictGet [] k = none := rfl

lemma dictGet_cons (k' : String) (v : TopVal) (t : BrewDict) (k : String) :
    dictGet ((k', v) :: t) k = if (k' == k) = true then some v else dictGet t k := by
  simp only [dictGet, List.find?]
  by_cases h : (k' == k) = true <;> simp [h]

lemma dictGet_append (l₁ l₂ : BrewDict) (k : String) :
    dictGet (l₁ ++ l₂) k = (dictGet l₁ k).or (dictGet l₂ k) := by
  induction l₁ with
  | nil => simp [dictGet_nil]
  | cons p t ih =>
      obtain ⟨k', v⟩ := p
      by_cases h : (k' == k) = true <;>
        simp [dictGet_cons, h, ih]

/-! ## The stored row (table `brews`, columns per `_init_schema` in db.py)

Column types follow the declared schema; NULL is `none`.  The `id` column is
`INTEGER PRIMARY KEY AUTOINCREMENT`; `date`, `type`, `dose_g`,
`water_weight_g` are `NOT NULL`, hence not `Option`.  `result_ratings` is the
legacy JSON ratings blob (TEXT), kept only for backward read-compatibility
and never read by the serializer. -/

structure Row where
  id : Int
  date : String
  type : String
  method : Option String
  dose_g : Rat
  water_weight_g : Rat
  water_volume_ml : Option Rat
  water_temp_c : Option Rat
  grind : Option String
  duration_s : Option Int
  notes : Option String
  coffee_roast_date : Option String
  coffee_type : Option String
  coffee_origin : Option (List String)
  coffee_varietal : Option String
  coffee_process : Option String
  water_ppm : Option Rat
  equipment_grinder : Option String
  equipment_brewer : Option String
  result_tds : Option Rat
  result_ey : Option Rat
  result_brix : Option Rat
  result_tasting_notes : Option String
  result_ratings : Option String
  result_rating_overall : Option Int
  result_rating_fragrance : Option Int
  result_rating_aroma : Option Int
  result_rating_flavour : Option Int
  result_rating_aftertaste : Option Int
  result_rating_acidity : Option Int
  result_rating_sweetness : Option Int
  result_rating_mouthfeel : Option Int
  deriving DecidableEq, Repr

/-- v0.4 grind enum (serialise.py `GRIND_ENUM`). -/
def GRIND_ENUM : List String :=
  ["turkish", "espresso", "fine", "medium_fine", "medium", "medium_coarse", "coarse"]

/-- Brew type enum (models.py `BREW_TYPE_ENUM`). -/
def BREW_TYPE_ENUM : List String := ["immersion", "pour_over", "espresso", "hybrid"]

/-- Coffee classification enum (models.py `COFFEE_TYPE_ENUM`). -/
def COFFEE_TYPE_ENUM : List String := ["single_origin", "blend"]

/-! ## Row → document (serialise.py `row_to_brew_dict`)

Each `if r.get(col) is not None: out[key] = …` statement of the Python
function becomes one `optField…` piece; dict insertion order is preserved
by the order of list concatenation. -/

/-- One optional brew-level field: emitted only when the column is non-NULL. -/
def optFieldT (k : String) (f : α → Leaf) : Option α → List (String × TopVal)
  | some v => [(k, .leaf (f v))]
  | none => []

/-- One optional sub-object field: emitted only when the column is non-NULL. -/
def optFieldS (k : String) (f : α → Leaf) : Option α → List (String × SubVal)
  | some v => [(k, .leaf (f v))]
  | none => []

/-- One optional `ratings` field: emitted only when the column is non-NULL. -/
def optFieldL (k : String) (f : α → Leaf) : Option α → List (String × Leaf)
  | some v => [(k, f v)]
  | none => []

/-- An integer DB cell as a document number. -/
def intLeaf (n : Int) : Leaf := .num (n : Rat)

/-- `if fields: out[k] = fields` — a sub-object is included only if non-empty. -/
def wrapObj (k : String) (l : List (String × SubVal)) : BrewDict :=
  if l.isEmpty then [] else [(k, .obj l)]

/-- Required brew fields (always present: `NOT NULL` in the schema). -/
def reqFields (r : Row) : BrewDict :=
  [("date", .leaf (.str r.date)),
   ("type", .leaf (.str r.type)),
   ("dose_g", .leaf (.num r.dose_g)),
   ("water_weight_g", .leaf (.num r.water_weight_g))]

/-- The optional brew-level scalar loop
`for field in ("method", "water_volume_ml", "water_temp_c", "duration_s", "notes")`. -/
def optScalarFields (r : Row) : BrewDict :=
  optFieldT "method" .str r.method ++
  optFieldT "water_volume_ml" .num r.water_volume_ml ++
  optFieldT "water_temp_c" .num r.water_temp_c ++
  optFieldT "duration_s" intLeaf r.duration_s ++
  optFieldT "notes" .str r.notes

/-- Grind handling: a non-NULL enum member is emitted as `grind`; a non-NULL
non-member is emitted under the `_invalid_grind` sentinel key so the caller
can warn (serialise.py lines 77–81). -/
def grindFields (r : Row) : BrewDict :=
  match r.grind with
  | none => []
  | some g =>
      if g ∈ GRIND_ENUM then [("grind", .leaf (.str g))]
      else [("_invalid_grind", .leaf (.str g))]

/-- The `coffee` sub-object fields (origin decoded from its JSON column). -/
def coffeeFields (r : Row) : List (String × SubVal) :=
  optFieldS "roast_date" .str r.coffee_roast_date ++
  optFieldS "type" .str r.coffee_type ++
  optFieldS "origin" .strList r.coffee_origin ++
  optFieldS "varietal" .str r.coffee_varietal ++
  optFieldS "process" .str r.coffee_process

/-- The `equipment` sub-object fields. -/
def equipmentFields (r : Row) : List (String × SubVal) :=
  optFieldS "grinder" .str r.equipment_grinder ++
  optFieldS "brewer" .str r.equipment_brewer

/-- The `result.ratings` fields, read from the eight individual
`result_rating_*` columns (never from the legacy JSON blob). -/
def ratingFields (r : Row) : List (String × Leaf) :=
  optFieldL "overall" intLeaf r.result_rating_overall ++
  optFieldL "fragrance" intLeaf r.result_rating_fragrance ++
  optFieldL "aroma" intLeaf r.result_rating_aroma ++
  optFieldL "flavour" intLeaf r.result_rating_flavour ++
  optFieldL "aftertaste" intLeaf r.result_rating_aftertaste ++
  optFieldL "acidity" intLeaf r.result_rating_acidity ++
  optFieldL "sweetness" intLeaf r.result_rating_sweetness ++
  optFieldL "mouthfeel" intLeaf r.result_rating_mouthfeel

/-- The `result` sub-object fields: scalar columns, then `ratings`
(included only if at least one rating column is non-NULL). -/
def resultFields (r : Row) : List (String × SubVal) :=
  optFieldS "tds" .num r.result_tds ++
  optFieldS "ey" .num r.result_ey ++
  optFieldS "brix" .num r.result_brix ++
  optFieldS "tasting_notes" .str r.result_tasting_notes ++
  (if (ratingFields r).isEmpty then [] else [("ratings", .obj (ratingFields r))])

/-- serialise.py `row_to_brew_dict`: convert a stored row to a BrewSpec v0.4
brew dict.  NULL columns are omitted; sub-objects are included only when
non-empty; an out-of-enum grind goes under the `_invalid_grind` sentinel. -/
def waterPiece (r : Row) : BrewDict :=
  match r.water_ppm with
  | some q => [("water", .obj [("ppm", .leaf (.num q))])]
  | none => []

def row_to_brew_dict (r : Row) : BrewDict :=
  reqFields r ++ optScalarFields r ++ grindFields r ++
  wrapObj "coffee" (coffeeFields r) ++
  waterPiece r ++
  wrapObj "equipment" (equipmentFields r) ++
  wrapObj "result" (resultFields r)

/-! ## Typed brew documents

A *BrewSpec brew document object* (one element of a v0.4 `brews` array): it
has exactly the v0.4 keys — four required scalars, six optional scalars and
four optional sub-objects (legacy brew-level `tds`/`ey`/`rating` keys do not
exist in v0.4 and are rejected by the schema's `additionalProperties: false`,
so a schema-valid document can never populate them).  An `Option` field
being `none` means the key is absent. -/

structure RatingsDoc where
  overall : Option Int
  fragrance : Option Int
  aroma : Option Int
  flavour : Option Int
  aftertaste : Option Int
  acidity : Option Int
  sweetness : Option Int
  mouthfeel : Option Int
  deriving DecidableEq, Repr

structure ResultDoc where
  tds : Option Rat
  ey : Option Rat
  brix : Option Rat
  tasting_notes : Option String
  ratings : Option RatingsDoc
  deriving DecidableEq, Repr

structure CoffeeDoc where
  roast_date : Option String
  type : Option String
  origin : Option (List String)
  varietal : Option String
  process : Option String
  deriving DecidableEq, Repr

structure WaterDoc where
  ppm : Option Rat
  deriving DecidableEq, Repr

structure EquipmentDoc where
  grinder : Option String
  brewer : Option String
  deriving DecidableEq, Repr

structure BrewDoc where
  date : String
  type : String
  dose_g : Rat
  water_weight_g : Rat
  method : Option String
  water_volume_ml : Option Rat
  water_temp_c : Option Rat
  grind : Option String
  duration_s : Option Int
  notes : Option String
  coffee : Option CoffeeDoc
  water : Option WaterDoc
  equipment : Option EquipmentDoc
  result : Option ResultDoc
  deriving DecidableEq, Repr

/-- The dict denoted by a `CoffeeDoc` (absent fields are absent keys). -/
def coffeeDocFields (c : CoffeeDoc) : List (String × SubVal) :=
  optFieldS "roast_date" .str c.roast_date ++
  optFieldS "type" .str c.type ++
  optFieldS "origin" .strList c.origin ++
  optFieldS "varietal" .str c.varietal ++
  optFieldS "process" .str c.process

/-- The dict denoted by an `EquipmentDoc`. -/
def equipmentDocFields (e : EquipmentDoc) : List (String × SubVal) :=
  optFieldS "grinder" .str e.grinder ++
  optFieldS "brewer" .str e.brewer

/-- The dict denoted by a `RatingsDoc`. -/
def ratingsDocFields (rt : RatingsDoc) : List (String × Leaf) :=
  optFieldL "overall" intLeaf rt.overall ++
  optFieldL "fragrance" intLeaf rt.fragrance ++
  optFieldL "aroma" intLeaf rt.aroma ++
  optFieldL "flavour" intLeaf rt.flavour ++
  optFieldL "aftertaste" intLeaf rt.aftertaste ++
  optFieldL "acidity" intLeaf rt.acidity ++
  optFieldL "sweetness" intLeaf rt.sweetness ++
  optFieldL "mouthfeel" intLeaf rt.mouthfeel

/-- The dict denoted by a `ResultDoc` (note: a present `ratings` key is kept
even when empty — the document object really has that key). -/
def resultDocFields (res : ResultDoc) : List (String × SubVal) :=
  optFieldS "tds" .num res.tds ++
  optFieldS "ey" .num res.ey ++
  optFieldS "brix" .num res.brix ++
  optFieldS "tasting_notes" .str res.tasting_notes ++
  (match res.ratings with
   | some rt => [("ratings", .obj (ratingsDocFields rt))]
   | none => [])

/-- One optional sub-object key of the document (present even when empty). -/
def optObjField (k : String) (f : α → List (String × SubVal)) :
    Option α → BrewDict
  | some v => [(k, .obj (f v))]
  | none => []

/-- The dict denoted by a `BrewDoc`: the brew document object seen as the
Python dict the YAML/JSON parser would produce for it.  Key order follows
the serializer's emission order (dict comparison in the theorems is
order-insensitive only through this fixed canonical order, matching the
claims' "modulo map key ordering"). -/
def docToDict (d : BrewDoc) : BrewDict :=
  [("date", .leaf (.str d.date)),
   ("type", .leaf (.str d.type)),
   ("dose_g", .leaf (.num d.dose_g)),
   ("water_weight_g", .leaf (.num d.water_weight_g))] ++
  optFieldT "method" .str d.method ++
  optFieldT "water_volume_ml" .num d.water_volume_ml ++
  optFieldT "water_temp_c" .num d.water_temp_c ++
  optFieldT "duration_s" intLeaf d.duration_s ++
  optFieldT "notes" .str d.notes ++
  optFieldT "grind" .str d.grind ++
  optObjField "coffee" coffeeDocFields d.coffee ++
  optObjField "water" (fun w => optFieldS "ppm" .num w.ppm) d.water ++
  optObjField "equipment" equipmentDocFields d.equipment ++
  optObjField "result" resultDocFields d.result

/-! ## Document → row (db.py `insert_brew_dict`)

`insert_brew_dict` takes an (already schema-validated) brew dict and binds
the thirty columns of one `INSERT` statement via `dict.get` chains.  It is
modelled over raw dicts so that it can fail: `.error` stands for the Python
exception that the import command's `except` branch catches — a
`sqlite3.IntegrityError` for a NULL in a `NOT NULL` column, or a runtime
`AttributeError`/binding error for a value of an unexpected shape.  (SQLite's
type affinity would accept some further shapes without error; those shapes
never occur in schema-valid documents, and the atomicity property proved
below does not depend on *which* inputs fail.)  The order in which the
`.get` reads are evaluated differs immaterially from Python, which raises
the `NOT NULL` error only at `conn.execute`; only ok-versus-error matters. -/

/-- Python truthiness of a scalar (`None`, `""`, `0` and `[]` are falsy). -/
def leafTruthy : Leaf → Bool
  | .null => false
  | .str s => !s.isEmpty
  | .num q => decide (q ≠ 0)
  | .strList l => !l.isEmpty

/-- `brew_dict.get(k) or {}`: a missing key, `None`, or any falsy scalar
yields the empty dict; a truthy scalar would later fail at `.get`. -/
def getObj (bd : BrewDict) (k : String) : Except String (List (String × SubVal)) :=
  match dictGet bd k with
  | none => .ok []
  | some (.obj l) => .ok l
  | some (.leaf v) => if leafTruthy v then .error ("not a dict: " ++ k) else .ok []

/-- `result.get("ratings") or {}` one level down. -/
def getSubObj (l : List (String × SubVal)) (k : String) :
    Except String (List (String × Leaf)) :=
  match subGet l k with
  | none => .ok []
  | some (.obj rl) => .ok rl
  | some (.leaf v) => if leafTruthy v then .error ("not a dict: " ++ k) else .ok []

/-- A required TEXT `NOT NULL` column (`date`, `type`). -/
def reqStr (bd : BrewDict) (k : String) : Except String String :=
  match dictGet bd k with
  | some (.leaf (.str s)) => .ok s
  | some (.leaf .null) => .error ("NOT NULL constraint failed: brews." ++ k)
  | none => .error ("NOT NULL constraint failed: brews." ++ k)
  | _ => .error ("unsupported value for brews." ++ k)

/-- A required REAL `NOT NULL` column (`dose_g`, `water_weight_g`). -/
def reqNum (bd : BrewDict) (k : String) : Except String Rat :=
  match dictGet bd k with
  | some (.leaf (.num q)) => .ok q
  | some (.leaf .null) => .error ("NOT NULL constraint failed: brews." ++ k)
  | none => .error ("NOT NULL constraint failed: brews." ++ k)
  | _ => .error ("unsupported value for brews." ++ k)

/-- An optional TEXT column at brew level. -/
def optStrT (bd : BrewDict) (k : String) : Except String (Option String) :=
  match dictGet bd k with
  | none => .ok none
  | some (.leaf .null) => .ok none
  | some (.leaf (.str s)) => .ok (some s)
  | _ => .error ("unsupported value for brews." ++ k)

/-- An optional REAL column at brew level. -/
def optNumT (bd : BrewDict) (k : String) : Except String (Option Rat) :=
  match dictGet bd k with
  | none => .ok none
  | some (.leaf .null) => .ok none
  | some (.leaf (.num q)) => .ok (some q)
  | _ => .error ("unsupported value for brews." ++ k)

/-- An optional INTEGER column at brew level (SQLite INTEGER affinity keeps
only numbers without a fractional part as integers). -/
def optIntT (bd : BrewDict) (k : String) : Except String (Option Int) :=
  match dictGet bd k with
  | none => .ok none
  | some (.leaf .null) => .ok none
  | some (.leaf (.num q)) =>
      if q.den = 1 then .ok (some q.num)
      else .error ("unsupported value for brews." ++ k)
  | _ => .error ("unsupported value for brews." ++ k)

/-- An optional TEXT column fed from a sub-object field. -/
def optStrS (l : List (String × SubVal)) (k : String) : Except String (Option String) :=
  match subGet l k with
  | none => .ok none
  | some (.leaf .null) => .ok none
  | some (.leaf (.str s)) => .ok (some s)
  | _ => .error ("unsupported value for " ++ k)

/-- An optional REAL column fed from a sub-object field. -/
def optNumS (l : List (String × SubVal)) (k : String) : Except String (Option Rat) :=
  match subGet l k with
  | none => .ok none
  | some (.leaf .null) => .ok none
  | some (.leaf (.num q)) => .ok (some q)
  | _ => .error ("unsupported value for " ++ k)

/-- `json.dumps(origin) if origin else None`: a missing, `None` or empty
origin list stores NULL; a non-empty list is JSON-encoded (modelled as the
list itself). -/
def originCol (coffee : List (String × SubVal)) : Except String (Option (List String)) :=
  match subGet coffee "origin" with
  | none => .ok none
  | some (.leaf .null) => .ok none
  | some (.leaf (.strList l)) => .ok (if l.isEmpty then none else some l)
  | _ => .error "unsupported value for coffee.origin"

/-- An optional INTEGER column fed from the `ratings` sub-object. -/
def optIntL (l : List (String × Leaf)) (k : String) : Except String (Option Int) :=
  match leafGet l k with
  | none => .ok none
  | some .null => .ok none
  | some (.num q) =>
      if q.den = 1 then .ok (some q.num)
      else .error ("unsupported value for ratings." ++ k)
  | _ => .error ("unsupported value for ratings." ++ k)

/-- `coffee.get(field)` where `coffee = brew_dict.get(objKey) or {}`
(an optional TEXT column fed from a sub-object). -/
def colStrS (bd : BrewDict) (objKey fieldKey : String) : Except String (Option String) :=
  (getObj bd objKey).bind fun l => optStrS l fieldKey

/-- As `colStrS`, for a REAL column. -/
def colNumS (bd : BrewDict) (objKey fieldKey : String) : Except String (Option Rat) :=
  (getObj bd objKey).bind fun l => optNumS l fieldKey

/-- `json.dumps(coffee.get("origin")) if … else None` for the origin column. -/
def colOrigin (bd : BrewDict) : Except String (Option (List String)) :=
  (getObj bd "coffee").bind fun l => originCol l

/-- `ratings.get(k)` where `ratings = result.get("ratings") or {}` and
`result = brew_dict.get("result") or {}` (an INTEGER rating column). -/
def colRating (bd : BrewDict) (k : String) : Except String (Option Int) :=
  (getObj bd "result").bind fun l => (getSubObj l "ratings").bind fun rl => optIntL rl k

/-- db.py `insert_brew_dict`: flatten a brew dict into one stored row.
`newId` is the AUTOINCREMENT id assigned by SQLite.  The legacy
`result_ratings` blob column is never written (left NULL).  The Python code
binds `coffee`/`water`/`equipment`/`result`/`ratings` once and then reads
fields from them; here each column re-reads its sub-object through
`colStrS`/`colNumS`/`colRating` — the reads are pure, so the flattening and
its ok-versus-error outcome are unchanged. -/
def insert_brew_dict (bd : BrewDict) (newId : Int) : Except String Row := do
  let date ← reqStr bd "date"
  let btype ← reqStr bd "type"
  let method ← optStrT bd "method"
  let dose ← reqNum bd "dose_g"
  let waterWeight ← reqNum bd "water_weight_g"
  let waterVolume ← optNumT bd "water_volume_ml"
  let waterTemp ← optNumT bd "water_temp_c"
  let grind ← optStrT bd "grind"
  let duration ← optIntT bd "duration_s"
  let notes ← optStrT bd "notes"
  let roastDate ← colStrS bd "coffee" "roast_date"
  let coffeeType ← colStrS bd "coffee" "type"
  let origin ← colOrigin bd
  let varietal ← colStrS bd "coffee" "varietal"
  let process ← colStrS bd "coffee" "process"
  let ppm ← colNumS bd "water" "ppm"
  let grinder ← colStrS bd "equipment" "grinder"
  let brewer ← colStrS bd "equipment" "brewer"
  let tds ← colNumS bd "result" "tds"
  let ey ← colNumS bd "result" "ey"
  let brix ← colNumS bd "result" "brix"
  let tastingNotes ← colStrS bd "result" "tasting_notes"
  let rOverall ← colRating bd "overall"
  let rFragrance ← colRating bd "fragrance"
  let rAroma ← colRating bd "aroma"
  let rFlavour ← colRating bd "flavour"
  let rAftertaste ← colRating bd "aftertaste"
  let rAcidity ← colRating bd "acidity"
  let rSweetness ← colRating bd "sweetness"
  let rMouthfeel ← colRating bd "mouthfeel"
  .ok
    { id := newId
      date := date
      type := btype
      method := method
      dose_g := dose
      water_weight_g := waterWeight
      water_volume_ml := waterVolume
      water_temp_c := waterTemp
      grind := grind
      duration_s := duration
      notes := notes
      coffee_roast_date := roastDate
      coffee_type := coffeeType
      coffee_origin := origin
      coffee_varietal := varietal
      coffee_process := process
      water_ppm := ppm
      equipment_grinder := grinder
      equipment_brewer := brewer
      result_tds := tds
      result_ey := ey
      result_brix := brix
      result_tasting_notes := tastingNotes
      result_ratings := none
      result_rating_overall := rOverall
      result_rating_fragrance := rFragrance
      result_rating_aroma := rAroma
      result_rating_flavour := rFlavour
      result_rating_aftertaste := rAftertaste
      result_rating_acidity := rAcidity
      result_rating_sweetness := rSweetness
      result_rating_mouthfeel := rMouthfeel }

/-- The row `insert_brew_dict` produces for a typed brew document object. -/
def rowOf (d : BrewDoc) (newId : Int) : Row :=
  { id := newId
    date := d.date
    type := d.type
    method := d.method
    dose_g := d.dose_g
    water_weight_g := d.water_weight_g
    water_volume_ml := d.water_volume_ml
    water_temp_c := d.water_temp_c
    grind := d.grind
    duration_s := d.duration_s
    notes := d.notes
    coffee_roast_date := d.coffee.bind (·.roast_date)
    coffee_type := d.coffee.bind (·.type)
    coffee_origin :=
      (d.coffee.bind (·.origin)).bind (fun l => if l.isEmpty then none else some l)
    coffee_varietal := d.coffee.bind (·.varietal)
    coffee_process := d.coffee.bind (·.process)
    water_ppm := d.water.bind (·.ppm)
    equipment_grinder := d.equipment.bind (·.grinder)
    equipment_brewer := d.equipment.bind (·.brewer)
    result_tds := d.result.bind (·.tds)
    result_ey := d.result.bind (·.ey)
    result_brix := d.result.bind (·.brix)
    result_tasting_notes := d.result.bind (·.tasting_notes)
    result_ratings := none
    result_rating_overall := (d.result.bind (·.ratings)).bind (·.overall)
    result_rating_fragrance := (d.result.bind (·.ratings)).bind (·.fragrance)
    result_rating_aroma := (d.result.bind (·.ratings)).bind (·.aroma)
    result_rating_flavour := (d.result.bind (·.ratings)).bind (·.flavour)
    result_rating_aftertaste := (d.result.bind (·.ratings)).bind (·.aftertaste)
    result_rating_acidity := (d.result.bind (·.ratings)).bind (·.acidity)
    result_rating_sweetness := (d.result.bind (·.ratings)).bind (·.sweetness)
    result_rating_mouthfeel := (d.result.bind (·.ratings)).bind (·.mouthfeel) }

/-! ## Well-formedness of a document (for the amended round-trip) -/

/-- At least one `coffee` field is populated. -/
def coffeePopulated (c : CoffeeDoc) : Bool :=
  c.roast_date.isSome || c.type.isSome || c.origin.isSome ||
  c.varietal.isSome || c.process.isSome

/-- A present `origin` list is non-empty (the v0.4 schema's `minItems: 1`). -/
def originOk (c : CoffeeDoc) : Bool :=
  match c.origin with
  | some l => !l.isEmpty
  | none => true

/-- At least one rating dimension is populated. -/
def ratingsPopulated (rt : RatingsDoc) : Bool :=
  rt.overall.isSome || rt.fragrance.isSome || rt.aroma.isSome ||
  rt.flavour.isSome || rt.aftertaste.isSome || rt.acidity.isSome ||
  rt.sweetness.isSome || rt.mouthfeel.isSome

/-- At least one `result` field is populated (a present-but-empty `ratings`
does not count: it populates no column). -/
def resultPopulated (res : ResultDoc) : Bool :=
  res.tds.isSome || res.ey.isSome || res.brix.isSome ||
  res.tasting_notes.isSome ||
  (match res.ratings with
   | some rt => ratingsPopulated rt
   | none => false)

/-- No present sub-object of the document is empty-of-content, and a present
origin list is non-empty: exactly the documents whose flattening loses no
key (an empty sub-object flattens to all-NULL columns and cannot be told
apart from an absent one). -/
def wellFormedDoc (d : BrewDoc) : Bool :=
  (match d.coffee with
   | some c => coffeePopulated c && originOk c
   | none => true) &&
  (match d.water with
   | some w => w.ppm.isSome
   | none => true) &&
  (match d.equipment with
   | some e => e.grinder.isSome || e.brewer.isSome
   | none => true) &&
  (match d.result with
   | some res =>
       resultPopulated res &&
       (match res.ratings with
        | some rt => ratingsPopulated rt
        | none => true)
   | none => true)

/-- The document's grind, when present, is a member of the v0.4 enum. -/
def grindOkB (d : BrewDoc) : Bool :=
  match d.grind with
  | some g => decide (g ∈ GRIND_ENUM)
  | none => true

/-! ## Dict-lookup evaluation lemmas -/

lemma subGet_nil (k : String) : subGet [] k = none := rfl

lemma subGet_cons (k' : String) (v : SubVal) (t : List (String × SubVal)) (k : String) :
    subGet ((k', v) :: t) k = if (k' == k) = true then some v else subGet t k := by
  simp only [subGet, List.find?]
  by_cases h : (k' == k) = true <;> simp [h]

lemma subGet_append (l₁ l₂ : List (String × SubVal)) (k : String) :
    subGet (l₁ ++ l₂) k = (subGet l₁ k).or (subGet l₂ k) := by
  induction l₁ with
  | nil => simp [subGet_nil]
  | cons p t ih =>
      obtain ⟨k', v⟩ := p
      by_cases h : (k' == k) = true <;> simp [subGet_cons, h, ih]

lemma leafGet_nil (k : String) : leafGet [] k = none := rfl

lemma leafGet_cons (k' : String) (v : Leaf) (t : List (String × Leaf)) (k : String) :
    leafGet ((k', v) :: t) k = if (k' == k) = true then some v else leafGet t k := by
  simp only [leafGet, List.find?]
  by_cases h : (k' == k) = true <;> simp [h]

lemma leafGet_append (l₁ l₂ : List (String × Leaf)) (k : String) :
    leafGet (l₁ ++ l₂) k = (leafGet l₁ k).or (leafGet l₂ k) := by
  induction l₁ with
  | nil => simp [leafGet_nil]
  | cons p t ih =>
      obtain ⟨k', v⟩ := p
      by_cases h : (k' == k) = true <;> simp [leafGet_cons, h, ih]

lemma dictGet_optFieldT (k k' : String) (f : α → Leaf) (o : Option α) :
    dictGet (optFieldT k f o) k' =
      if (k == k') = true then o.map (fun v => .leaf (f v)) else none := by
  cases o <;> by_cases h : (k == k') = true <;>
    simp [optFieldT, dictGet_nil, dictGet_cons, h]

lemma dictGet_optObjField (k k' : String) (f : α → List (String × SubVal)) (o : Option α) :
    dictGet (optObjField k f o) k' =
      if (k == k') = true then o.map (fun v => .obj (f v)) else none := by
  cases o <;> by_cases h : (k == k') = true <;>
    simp [optObjField, dictGet_nil, dictGet_cons, h]

lemma subGet_optFieldS (k k' : String) (f : α → Leaf) (o : Option α) :
    subGet (optFieldS k f o) k' =
      if (k == k') = true then o.map (fun v => .leaf (f v)) else none := by
  cases o <;> by_cases h : (k == k') = true <;>
    simp [optFieldS, subGet_nil, subGet_cons, h]

lemma leafGet_optFieldL (k k' : String) (f : α → Leaf) (o : Option α) :
    leafGet (optFieldL k f o) k' =
      if (k == k') = true then o.map f else none := by
  cases o <;> by_cases h : (k == k') = true <;>
    simp [optFieldL, leafGet_nil, leafGet_cons, h]

/-! ## `insert_brew_dict` on the dict of a typed document -/

section Bridge

variable (d : BrewDoc)

lemma getObj_docToDict_coffee :
    getObj (docToDict d) "coffee" =
      .ok (match d.coffee with
           | some c => coffeeDocFields c
           | none => []) := by
  cases hc : d.coffee <;>
    simp [getObj, docToDict, dictGet_append, dictGet_cons, dictGet_nil,
      dictGet_optFieldT, dictGet_optObjField, hc]

lemma getObj_docToDict_water :
    getObj (docToDict d) "water" =
      .ok (match d.water with
           | some w => optFieldS "ppm" .num w.ppm
           | none => []) := by
  cases hw : d.water <;>
    simp [getObj, docToDict, dictGet_append, dictGet_cons, dictGet_nil,
      dictGet_optFieldT, dictGet_optObjField, hw]

lemma getObj_docToDict_equipment :
    getObj (docToDict d) "equipment" =
      .ok (match d.equipment with
           | some e => equipmentDocFields e
           | none => []) := by
  cases he : d.equipment <;>
    simp [getObj, docToDict, dictGet_append, dictGet_cons, dictGet_nil,
      dictGet_optFieldT, dictGet_optObjField, he]

lemma getObj_docToDict_result :
    getObj (docToDict d) "result" =
      .ok (match d.result with
           | some res => resultDocFields res
           | none => []) := by
  cases hr : d.result <;>
    simp [getObj, docToDict, dictGet_append, dictGet_cons, dictGet_nil,
      dictGet_optFieldT, dictGet_optObjField, hr]

lemma reqStr_docToDict_date : reqStr (docToDict d) "date" = .ok d.date := by
  simp [reqStr, docToDict, dictGet_append, dictGet_cons, dictGet_nil,
    dictGet_optFieldT, dictGet_optObjField]

lemma reqStr_docToDict_type : reqStr (docToDict d) "type" = .ok d.type := by
  simp [reqStr, docToDict, dictGet_append, dictGet_cons, dictGet_nil,
    dictGet_optFieldT, dictGet_optObjField]

lemma reqNum_docToDict_dose : reqNum (docToDict d) "dose_g" = .ok d.dose_g := by
  simp [reqNum, docToDict, dictGet_append, dictGet_cons, dictGet_nil,
    dictGet_optFieldT, dictGet_optObjField]

lemma reqNum_docToDict_weight :
    reqNum (docToDict d) "water_weight_g" = .ok d.water_weight_g := by
  simp [reqNum, docToDict, dictGet_append, dictGet_cons, dictGet_nil,
    dictGet_optFieldT, dictGet_optObjField]

lemma optStrT_docToDict_method : optStrT (docToDict d) "method" = .ok d.method := by
  cases h : d.method <;>
    simp [optStrT, docToDict, dictGet_append, dictGet_cons, dictGet_nil,
      dictGet_optFieldT, dictGet_optObjField, h]

lemma optNumT_docToDict_volume :
    optNumT (docToDict d) "water_volume_ml" = .ok d.water_volume_ml := by
  cases h : d.water_volume_ml <;>
    simp [optNumT, docToDict, dictGet_append, dictGet_cons, dictGet_nil,
      dictGet_optFieldT, dictGet_optObjField, h]

lemma optNumT_docToDict_temp :
    optNumT (docToDict d) "water_temp_c" = .ok d.water_temp_c := by
  cases h : d.water_temp_c <;>
    simp [optNumT, docToDict, dictGet_append, dictGet_cons, dictGet_nil,
      dictGet_optFieldT, dictGet_optObjField, h]

lemma optStrT_docToDict_grind : optStrT (docToDict d) "grind" = .ok d.grind := by
  cases h : d.grind <;>
    simp [optStrT, docToDict, dictGet_append, dictGet_cons, dictGet_nil,
      dictGet_optFieldT, dictGet_optObjField, h]

lemma optIntT_docToDict_duration :
    optIntT (docToDict d) "duration_s" = .ok d.duration_s := by
  cases h : d.duration_s <;>
    simp [optIntT, intLeaf, docToDict, dictGet_append, dictGet_cons, dictGet_nil,
      dictGet_optFieldT, dictGet_optObjField, h]

lemma optStrT_docToDict_notes : optStrT (docToDict d) "notes" = .ok d.notes := by
  cases h : d.notes <;>
    simp [optStrT, docToDict, dictGet_append, dictGet_cons, dictGet_nil,
      dictGet_optFieldT, dictGet_optObjField, h]

end Bridge

section BridgeSub

lemma optStrS_nil (k : String) : optStrS [] k = .ok none := rfl

lemma optNumS_nil (k : String) : optNumS [] k = .ok none := rfl

lemma optIntL_nil (k : String) : optIntL [] k = .ok none := rfl

lemma originCol_nil : originCol [] = .ok none := rfl

lemma getSubObj_nil (k : String) : getSubObj [] k = .ok [] := rfl

lemma optStrS_coffee_roast (c : CoffeeDoc) :
    optStrS (coffeeDocFields c) "roast_date" = .ok c.roast_date := by
  obtain ⟨rd, ct, og, va, pr⟩ := c
  cases rd <;> simp [optStrS, coffeeDocFields, subGet_append, subGet_optFieldS]

lemma optStrS_coffee_type (c : CoffeeDoc) :
    optStrS (coffeeDocFields c) "type" = .ok c.type := by
  obtain ⟨rd, ct, og, va, pr⟩ := c
  cases ct <;> simp [optStrS, coffeeDocFields, subGet_append, subGet_optFieldS]

lemma optStrS_coffee_varietal (c : CoffeeDoc) :
    optStrS (coffeeDocFields c) "varietal" = .ok c.varietal := by
  obtain ⟨rd, ct, og, va, pr⟩ := c
  cases va <;> simp [optStrS, coffeeDocFields, subGet_append, subGet_optFieldS]

lemma optStrS_coffee_process (c : CoffeeDoc) :
    optStrS (coffeeDocFields c) "process" = .ok c.process := by
  obtain ⟨rd, ct, og, va, pr⟩ := c
  cases pr <;> simp [optStrS, coffeeDocFields, subGet_append, subGet_optFieldS]

lemma originCol_coffee (c : CoffeeDoc) :
    originCol (coffeeDocFields c) =
      .ok (c.origin.bind (fun l => if l.isEmpty then none else some l)) := by
  obtain ⟨rd, ct, og, va, pr⟩ := c
  cases og <;> simp [originCol, coffeeDocFields, subGet_append, subGet_optFieldS]

lemma optNumS_water (w : WaterDoc) :
    optNumS (optFieldS "ppm" .num w.ppm) "ppm" = .ok w.ppm := by
  cases h : w.ppm <;> simp [optNumS, subGet_optFieldS, h]

lemma optStrS_equipment_grinder (e : EquipmentDoc) :
    optStrS (equipmentDocFields e) "grinder" = .ok e.grinder := by
  obtain ⟨g, b⟩ := e
  cases g <;> simp [optStrS, equipmentDocFields, subGet_append, subGet_optFieldS]

lemma optStrS_equipment_brewer (e : EquipmentDoc) :
    optStrS (equipmentDocFields e) "brewer" = .ok e.brewer := by
  obtain ⟨g, b⟩ := e
  cases b <;> simp [optStrS, equipmentDocFields, subGet_append, subGet_optFieldS]

lemma optNumS_result_tds (res : ResultDoc) :
    optNumS (resultDocFields res) "tds" = .ok res.tds := by
  obtain ⟨t, e, b, n, rt⟩ := res
  cases t <;> cases rt <;>
    simp [optNumS, resultDocFields, subGet_append, subGet_optFieldS, subGet_cons, subGet_nil]

lemma optNumS_result_ey (res : ResultDoc) :
    optNumS (resultDocFields res) "ey" = .ok res.ey := by
  obtain ⟨t, e, b, n, rt⟩ := res
  cases e <;> cases rt <;>
    simp [optNumS, resultDocFields, subGet_append, subGet_optFieldS, subGet_cons, subGet_nil]

lemma optNumS_result_brix (res : ResultDoc) :
    optNumS (resultDocFields res) "brix" = .ok res.brix := by
  obtain ⟨t, e, b, n, rt⟩ := res
  cases b <;> cases rt <;>
    simp [optNumS, resultDocFields, subGet_append, subGet_optFieldS, subGet_cons, subGet_nil]

lemma optStrS_result_tasting (res : ResultDoc) :
    optStrS (resultDocFields res) "tasting_notes" = .ok res.tasting_notes := by
  obtain ⟨t, e, b, n, rt⟩ := res
  cases n <;> cases rt <;>
    simp [optStrS, resultDocFields, subGet_append, subGet_optFieldS, subGet_cons, subGet_nil]

lemma getSubObj_result_ratings (res : ResultDoc) :
    getSubObj (resultDocFields res) "ratings" =
      .ok (match res.ratings with
           | some rt => ratingsDocFields rt
           | none => []) := by
  obtain ⟨t, e, b, n, rt⟩ := res
  cases rt <;>
    simp [getSubObj, resultDocFields, subGet_append, subGet_optFieldS, subGet_cons, subGet_nil]

lemma optIntL_ratings_overall (rt : RatingsDoc) :
    optIntL (ratingsDocFields rt) "overall" = .ok rt.overall := by
  obtain ⟨a1, a2, a3, a4, a5, a6, a7, a8⟩ := rt
  cases a1 <;>
    simp [optIntL, intLeaf, ratingsDocFields, leafGet_append, leafGet_optFieldL, leafGet_nil]

lemma optIntL_ratings_fragrance (rt : RatingsDoc) :
    optIntL (ratingsDocFields rt) "fragrance" = .ok rt.fragrance := by
  obtain ⟨a1, a2, a3, a4, a5, a6, a7, a8⟩ := rt
  cases a2 <;>
    simp [optIntL, intLeaf, ratingsDocFields, leafGet_append, leafGet_optFieldL, leafGet_nil]

lemma optIntL_ratings_aroma (rt : RatingsDoc) :
    optIntL (ratingsDocFields rt) "aroma" = .ok rt.aroma := by
  obtain ⟨a1, a2, a3, a4, a5, a6, a7, a8⟩ := rt
  cases a3 <;>
    simp [optIntL, intLeaf, ratingsDocFields, leafGet_append, leafGet_optFieldL, leafGet_nil]

lemma optIntL_ratings_flavour (rt : RatingsDoc) :
    optIntL (ratingsDocFields rt) "flavour" = .ok rt.flavour := by
  obtain ⟨a1, a2, a3, a4, a5, a6, a7, a8⟩ := rt
  cases a4 <;>
    simp [optIntL, intLeaf, ratingsDocFields, leafGet_append, leafGet_optFieldL, leafGet_nil]

lemma optIntL_ratings_aftertaste (rt : RatingsDoc) :
    optIntL (ratingsDocFields rt) "aftertaste" = .ok rt.aftertaste := by
  obtain ⟨a1, a2, a3, a4, a5, a6, a7, a8⟩ := rt
  cases a5 <;>
    simp [optIntL, intLeaf, ratingsDocFields, leafGet_append, leafGet_optFieldL, leafGet_nil]

lemma optIntL_ratings_acidity (rt : RatingsDoc) :
    optIntL (ratingsDocFields rt) "acidity" = .ok rt.acidity := by
  obtain ⟨a1, a2, a3, a4, a5, a6, a7, a8⟩ := rt
  cases a6 <;>
    simp [optIntL, intLeaf, ratingsDocFields, leafGet_append, leafGet_optFieldL, leafGet_nil]

lemma optIntL_ratings_sweetness (rt : RatingsDoc) :
    optIntL (ratingsDocFields rt) "sweetness" = .ok rt.sweetness := by
  obtain ⟨a1, a2, a3, a4, a5, a6, a7, a8⟩ := rt
  cases a7 <;>
    simp [optIntL, intLeaf, ratingsDocFields, leafGet_append, leafGet_optFieldL, leafGet_nil]

lemma optIntL_ratings_mouthfeel (rt : RatingsDoc) :
    optIntL (ratingsDocFields rt) "mouthfeel" = .ok rt.mouthfeel := by
  obtain ⟨a1, a2, a3, a4, a5, a6, a7, a8⟩ := rt
  cases a8 <;>
    simp [optIntL, intLeaf, ratingsDocFields, leafGet_append, leafGet_optFieldL, leafGet_nil]

end BridgeSub

lemma except_ok_bind (a : α) (f : α → Except String β) :
    (Except.ok a).bind f = f a := rfl

lemma monad_ok_bind (a : α) (f : α → Except String β) :
    (Except.ok a >>= f) = f a := rfl

section ColLemmas

variable (d : BrewDoc)

lemma colStrS_coffee_roast :
    colStrS (docToDict d) "coffee" "roast_date" = .ok (d.coffee.bind (·.roast_date)) := by
  cases hc : d.coffee <;>
    simp [colStrS, getObj_docToDict_coffee, hc, optStrS_nil,
      optStrS_coffee_roast, except_ok_bind]

lemma colStrS_coffee_type :
    colStrS (docToDict d) "coffee" "type" = .ok (d.coffee.bind (·.type)) := by
  cases hc : d.coffee <;>
    simp [colStrS, getObj_docToDict_coffee, hc, optStrS_nil,
      optStrS_coffee_type, except_ok_bind]

lemma colStrS_coffee_varietal :
    colStrS (docToDict d) "coffee" "varietal" = .ok (d.coffee.bind (·.varietal)) := by
  cases hc : d.coffee <;>
    simp [colStrS, getObj_docToDict_coffee, hc, optStrS_nil,
      optStrS_coffee_varietal, except_ok_bind]

lemma colStrS_coffee_process :
    colStrS (docToDict d) "coffee" "process" = .ok (d.coffee.bind (·.process)) := by
  cases hc : d.coffee <;>
    simp [colStrS, getObj_docToDict_coffee, hc, optStrS_nil,
      optStrS_coffee_process, except_ok_bind]

lemma colOrigin_docToDict :
    colOrigin (docToDict d) =
      .ok ((d.coffee.bind (·.origin)).bind (fun l => if l.isEmpty then none else some l)) := by
  cases hc : d.coffee <;>
    simp [colOrigin, getObj_docToDict_coffee, hc, originCol_nil,
      originCol_coffee, except_ok_bind]

lemma colNumS_water_ppm :
    colNumS (docToDict d) "water" "ppm" = .ok (d.water.bind (·.ppm)) := by
  cases hw : d.water <;>
    simp [colNumS, getObj_docToDict_water, hw, optNumS_nil,
      optNumS_water, except_ok_bind]

lemma colStrS_equipment_grinder :
    colStrS (docToDict d) "equipment" "grinder" = .ok (d.equipment.bind (·.grinder)) := by
  cases he : d.equipment <;>
    simp [colStrS, getObj_docToDict_equipment, he, optStrS_nil,
      optStrS_equipment_grinder, except_ok_bind]

lemma colStrS_equipment_brewer :
    colStrS (docToDict d) "equipment" "brewer" = .ok (d.equipment.bind (·.brewer)) := by
  cases he : d.equipment <;>
    simp [colStrS, getObj_docToDict_equipment, he, optStrS_nil,
      optStrS_equipment_brewer, except_ok_bind]

lemma colNumS_result_tds :
    colNumS (docToDict d) "result" "tds" = .ok (d.result.bind (·.tds)) := by
  cases hr : d.result <;>
    simp [colNumS, getObj_docToDict_result, hr, optNumS_nil,
      optNumS_result_tds, except_ok_bind]

lemma colNumS_result_ey :
    colNumS (docToDict d) "result" "ey" = .ok (d.result.bind (·.ey)) := by
  cases hr : d.result <;>
    simp [colNumS, getObj_docToDict_result, hr, optNumS_nil,
      optNumS_result_ey, except_ok_bind]

lemma colNumS_result_brix :
    colNumS (docToDict d) "result" "brix" = .ok (d.result.bind (·.brix)) := by
  cases hr : d.result <;>
    simp [colNumS, getObj_docToDict_result, hr, optNumS_nil,
      optNumS_result_brix, except_ok_bind]

lemma colStrS_result_tasting :
    colStrS (docToDict d) "result" "tasting_notes" =
      .ok (d.result.bind (·.tasting_notes)) := by
  cases hr : d.result <;>
    simp [colStrS, getObj_docToDict_result, hr, optStrS_nil,
      optStrS_result_tasting, except_ok_bind]

lemma colRating_overall :
    colRating (docToDict d) "overall" =
      .ok ((d.result.bind (·.ratings)).bind (·.overall)) := by
  cases hr : d.result with
  | none =>
      simp [colRating, getObj_docToDict_result, hr, getSubObj_nil,
        optIntL_nil, except_ok_bind]
  | some res =>
      obtain ⟨t, e, b, n, rt⟩ := res
      cases rt <;>
        simp [colRating, getObj_docToDict_result, hr, getSubObj_result_ratings,
          optIntL_nil, optIntL_ratings_overall, except_ok_bind]

lemma colRating_fragrance :
    colRating (docToDict d) "fragrance" =
      .ok ((d.result.bind (·.ratings)).bind (·.fragrance)) := by
  cases hr : d.result with
  | none =>
      simp [colRating, getObj_docToDict_result, hr, getSubObj_nil,
        optIntL_nil, except_ok_bind]
  | some res =>
      obtain ⟨t, e, b, n, rt⟩ := res
      cases rt <;>
        simp [colRating, getObj_docToDict_result, hr, getSubObj_result_ratings,
          optIntL_nil, optIntL_ratings_fragrance, except_ok_bind]

lemma colRating_aroma :
    colRating (docToDict d) "aroma" =
      .ok ((d.result.bind (·.ratings)).bind (·.aroma)) := by
  cases hr : d.result with
  | none =>
      simp [colRating, getObj_docToDict_result, hr, getSubObj_nil,
        optIntL_nil, except_ok_bind]
  | some res =>
      obtain ⟨t, e, b, n, rt⟩ := res
      cases rt <;>
        simp [colRating, getObj_docToDict_result, hr, getSubObj_result_ratings,
          optIntL_nil, optIntL_ratings_aroma, except_ok_bind]

lemma colRating_flavour :
    colRating (docToDict d) "flavour" =
      .ok ((d.result.bind (·.ratings)).bind (·.flavour)) := by
  cases hr : d.result with
  | none =>
      simp [colRating, getObj_docToDict_result, hr, getSubObj_nil,
        optIntL_nil, except_ok_bind]
  | some res =>
      obtain ⟨t, e, b, n, rt⟩ := res
      cases rt <;>
        simp [colRating, getObj_docToDict_result, hr, getSubObj_result_ratings,
          optIntL_nil, optIntL_ratings_flavour, except_ok_bind]

lemma colRating_aftertaste :
    colRating (docToDict d) "aftertaste" =
      .ok ((d.result.bind (·.ratings)).bind (·.aftertaste)) := by
  cases hr : d.result with
  | none =>
      simp [colRating, getObj_docToDict_result, hr, getSubObj_nil,
        optIntL_nil, except_ok_bind]
  | some res =>
      obtain ⟨t, e, b, n, rt⟩ := res
      cases rt <;>
        simp [colRating, getObj_docToDict_result, hr, getSubObj_result_ratings,
          optIntL_nil, optIntL_ratings_aftertaste, except_ok_bind]

lemma colRating_acidity :
    colRating (docToDict d) "acidity" =
      .ok ((d.result.bind (·.ratings)).bind (·.acidity)) := by
  cases hr : d.result with
  | none =>
      simp [colRating, getObj_docToDict_result, hr, getSubObj_nil,
        optIntL_nil, except_ok_bind]
  | some res =>
      obtain ⟨t, e, b, n, rt⟩ := res
      cases rt <;>
        simp [colRating, getObj_docToDict_result, hr, getSubObj_result_ratings,
          optIntL_nil, optIntL_ratings_acidity, except_ok_bind]

lemma colRating_sweetness :
    colRating (docToDict d) "sweetness" =
      .ok ((d.result.bind (·.ratings)).bind (·.sweetness)) := by
  cases hr : d.result with
  | none =>
      simp [colRating, getObj_docToDict_result, hr, getSubObj_nil,
        optIntL_nil, except_ok_bind]
  | some res =>
      obtain ⟨t, e, b, n, rt⟩ := res
      cases rt <;>
        simp [colRating, getObj_docToDict_result, hr, getSubObj_result_ratings,
          optIntL_nil, optIntL_ratings_sweetness, except_ok_bind]

lemma colRating_mouthfeel :
    colRating (docToDict d) "mouthfeel" =
      .ok ((d.result.bind (·.ratings)).bind (·.mouthfeel)) := by
  cases hr : d.result with
  | none =>
      simp [colRating, getObj_docToDict_result, hr, getSubObj_nil,
        optIntL_nil, except_ok_bind]
  | some res =>
      obtain ⟨t, e, b, n, rt⟩ := res
      cases rt <;>
        simp [colRating, getObj_docToDict_result, hr, getSubObj_result_ratings,
          optIntL_nil, optIntL_ratings_mouthfeel, except_ok_bind]

end ColLemmas

/-- Flattening the dict of a typed brew document never fails and produces
exactly `rowOf`: the typed description of the thirty bound columns. -/
lemma insert_brew_dict_docToDict (d : BrewDoc) (newId : Int) :
    insert_brew_dict (docToDict d) newId = .ok (rowOf d newId) := by
  simp only [insert_brew_dict,
    reqStr_docToDict_date, reqStr_docToDict_type, optStrT_docToDict_method,
    reqNum_docToDict_dose, reqNum_docToDict_weight, optNumT_docToDict_volume,
    optNumT_docToDict_temp, optStrT_docToDict_grind, optIntT_docToDict_duration,
    optStrT_docToDict_notes, colStrS_coffee_roast, colStrS_coffee_type,
    colOrigin_docToDict, colStrS_coffee_varietal, colStrS_coffee_process,
    colNumS_water_ppm, colStrS_equipment_grinder, colStrS_equipment_brewer,
    colNumS_result_tds, colNumS_result_ey, colNumS_result_brix,
    colStrS_result_tasting, colRating_overall, colRating_fragrance,
    colRating_aroma, colRating_flavour, colRating_aftertaste,
    colRating_acidity, colRating_sweetness, colRating_mouthfeel,
    monad_ok_bind]
  rfl

/-! ## Non-emptiness of populated sub-object dicts -/

lemma isEmpty_append (l₁ l₂ : List α) :
    (l₁ ++ l₂).isEmpty = (l₁.isEmpty && l₂.isEmpty) := by
  cases l₁ <;> simp

lemma ratingsDocFields_ne_empty (rt : RatingsDoc) (h : ratingsPopulated rt = true) :
    (ratingsDocFields rt).isEmpty = false := by
  obtain ⟨a1, a2, a3, a4, a5, a6, a7, a8⟩ := rt
  cases a1 with
  | some v => simp [ratingsDocFields, optFieldL]
  | none =>
    cases a2 with
    | some v => simp [ratingsDocFields, optFieldL]
    | none =>
      cases a3 with
      | some v => simp [ratingsDocFields, optFieldL]
      | none =>
        cases a4 with
        | some v => simp [ratingsDocFields, optFieldL]
        | none =>
          cases a5 with
          | some v => simp [ratingsDocFields, optFieldL]
          | none =>
            cases a6 with
            | some v => simp [ratingsDocFields, optFieldL]
            | none =>
              cases a7 with
              | some v => simp [ratingsDocFields, optFieldL]
              | none =>
                cases a8 with
                | some v => simp [ratingsDocFields, optFieldL]
                | none => simp [ratingsPopulated] at h

lemma coffeeDocFields_ne_empty (c : CoffeeDoc) (h : coffeePopulated c = true) :
    (coffeeDocFields c).isEmpty = false := by
  obtain ⟨rd, ct, og, va, pr⟩ := c
  cases rd with
  | some v => simp [coffeeDocFields, optFieldS]
  | none =>
    cases ct with
    | some v => simp [coffeeDocFields, optFieldS]
    | none =>
      cases og with
      | some v => simp [coffeeDocFields, optFieldS]
      | none =>
        cases va with
        | some v => simp [coffeeDocFields, optFieldS]
        | none =>
          cases pr with
          | some v => simp [coffeeDocFields, optFieldS]
          | none => simp [coffeePopulated] at h

lemma equipmentDocFields_ne_empty (e : EquipmentDoc)
    (h : (e.grinder.isSome || e.brewer.isSome) = true) :
    (equipmentDocFields e).isEmpty = false := by
  obtain ⟨g, b⟩ := e
  cases g with
  | some v => simp [equipmentDocFields, optFieldS]
  | none =>
    cases b with
    | some v => simp [equipmentDocFields, optFieldS]
    | none => simp at h

lemma resultDocFields_ne_empty (res : ResultDoc) (h : resultPopulated res = true) :
    (resultDocFields res).isEmpty = false := by
  obtain ⟨t, e, b, n, rt⟩ := res
  cases t with
  | some v => simp [resultDocFields, optFieldS]
  | none =>
    cases e with
    | some v => simp [resultDocFields, optFieldS]
    | none =>
      cases b with
      | some v => simp [resultDocFields, optFieldS]
      | none =>
        cases n with
        | some v => simp [resultDocFields, optFieldS]
        | none =>
          cases rt with
          | some rtv => simp [resultDocFields, optFieldS]
          | none => simp [resultPopulated] at h

/-! ## Row → document on the flattening of a well-formed document -/

lemma grindFields_rowOf (d : BrewDoc) (newId : Int) (h : grindOkB d = true) :
    grindFields (rowOf d newId) = optFieldT "grind" .str d.grind := by
  unfold grindOkB at h
  cases hg : d.grind with
  | none => simp [grindFields, rowOf, optFieldT, hg]
  | some g =>
      rw [hg] at h
      simp only [decide_eq_true_eq] at h
      simp [grindFields, rowOf, optFieldT, hg, h]

lemma coffee_piece_rowOf (d : BrewDoc) (newId : Int)
    (h : (match d.coffee with
          | some c => coffeePopulated c && originOk c
          | none => true) = true) :
    wrapObj "coffee" (coffeeFields (rowOf d newId)) =
      optObjField "coffee" coffeeDocFields d.coffee := by
  cases hc : d.coffee with
  | none => simp [rowOf, coffeeFields, wrapObj, optObjField, optFieldS, hc]
  | some c =>
      rw [hc] at h
      simp only [Bool.and_eq_true] at h
      obtain ⟨hpop, hog⟩ := h
      have hfields : coffeeFields (rowOf d newId) = coffeeDocFields c := by
        cases ho : c.origin with
        | none => simp [coffeeFields, coffeeDocFields, rowOf, hc, ho]
        | some l =>
            unfold originOk at hog
            rw [ho] at hog
            simp only [Bool.not_eq_true'] at hog
            have hne : l ≠ [] := by
              intro hnil
              rw [hnil] at hog
              simp at hog
            simp [coffeeFields, coffeeDocFields, rowOf, hc, ho, hog, hne]
      rw [hfields]
      unfold wrapObj optObjField
      rw [coffeeDocFields_ne_empty c hpop]
      rfl

lemma water_piece_rowOf (d : BrewDoc) (newId : Int)
    (h : (match d.water with
          | some w => w.ppm.isSome
          | none => true) = true) :
    waterPiece (rowOf d newId) =
      optObjField "water" (fun w => optFieldS "ppm" .num w.ppm) d.water := by
  cases hw : d.water with
  | none => simp [waterPiece, rowOf, optObjField, hw]
  | some w =>
      rw [hw] at h
      have h' : w.ppm.isSome = true := h
      cases hp : w.ppm with
      | none => rw [hp] at h'; simp at h'
      | some q => simp [waterPiece, rowOf, optObjField, optFieldS, hw, hp]

lemma equipment_piece_rowOf (d : BrewDoc) (newId : Int)
    (h : (match d.equipment with
          | some e => e.grinder.isSome || e.brewer.isSome
          | none => true) = true) :
    wrapObj "equipment" (equipmentFields (rowOf d newId)) =
      optObjField "equipment" equipmentDocFields d.equipment := by
  cases he : d.equipment with
  | none => simp [rowOf, equipmentFields, wrapObj, optObjField, optFieldS, he]
  | some e =>
      rw [he] at h
      have hfields : equipmentFields (rowOf d newId) = equipmentDocFields e := by
        simp [equipmentFields, equipmentDocFields, rowOf, he]
      rw [hfields]
      unfold wrapObj optObjField
      rw [equipmentDocFields_ne_empty e h]
      rfl

lemma result_piece_rowOf (d : BrewDoc) (newId : Int)
    (h : (match d.result with
          | some res =>
              resultPopulated res &&
                (match res.ratings with
                 | some rt => ratingsPopulated rt
                 | none => true)
          | none => true) = true) :
    wrapObj "result" (resultFields (rowOf d newId)) =
      optObjField "result" resultDocFields d.result := by
  cases hr : d.result with
  | none =>
      simp [rowOf, resultFields, ratingFields, wrapObj, optObjField,
        optFieldS, optFieldL, hr]
  | some res =>
      rw [hr] at h
      simp only [Bool.and_eq_true] at h
      obtain ⟨hpop, hrt⟩ := h
      have hratings :
          ratingFields (rowOf d newId) =
            (match res.ratings with
             | some rt => ratingsDocFields rt
             | none => []) := by
        cases hx : res.ratings with
        | none => simp [ratingFields, ratingsDocFields, rowOf, optFieldL, hr, hx]
        | some rtv => simp [ratingFields, ratingsDocFields, rowOf, hr, hx]
      have hfields : resultFields (rowOf d newId) = resultDocFields res := by
        unfold resultFields resultDocFields
        rw [hratings]
        cases hx : res.ratings with
        | none => simp [rowOf, hr]
        | some rtv =>
            rw [hx] at hrt
            rw [ratingsDocFields_ne_empty rtv hrt]
            simp [rowOf, hr]
      rw [hfields]
      unfold wrapObj optObjField
      rw [resultDocFields_ne_empty res hpop]
      rfl

/-- Rebuilding a document from the flattened row of a well-formed document
with an enum-valid grind reproduces the document's dict exactly. -/
lemma row_to_brew_dict_rowOf (d : BrewDoc) (newId : Int)
    (h1 : wellFormedDoc d = true) (h2 : grindOkB d = true) :
    row_to_brew_dict (rowOf d newId) = docToDict d := by
  unfold wellFormedDoc at h1
  simp only [Bool.and_eq_true] at h1
  obtain ⟨⟨⟨hc, hw⟩, he⟩, hr⟩ := h1
  unfold row_to_brew_dict docToDict
  rw [grindFields_rowOf d newId h2, coffee_piece_rowOf d newId hc,
    water_piece_rowOf d newId hw, equipment_piece_rowOf d newId he,
    result_piece_rowOf d newId hr]
  simp [reqFields, optScalarFields, rowOf]

/-! ## Null-omission invariant (serialise.py output shape) -/

/-- A scalar that is not Python `None`. -/
def leafNotNull : Leaf → Bool
  | .null => false
  | _ => true

/-- A sub-object value with no `null` inside and no empty nested object. -/
def subValOk : SubVal → Bool
  | .leaf v => leafNotNull v
  | .obj l => !l.isEmpty && l.all (fun p => leafNotNull p.2)

/-- A brew-level value with no `null` inside and no empty sub-object. -/
def topValOk : TopVal → Bool
  | .leaf v => leafNotNull v
  | .obj l => !l.isEmpty && l.all (fun p => subValOk p.2)

/-- No key of the brew dict is `null`-valued, at any depth, and no object
value is empty, at any depth. -/
def noNullsNoEmpty (bd : BrewDict) : Bool :=
  bd.all (fun p => topValOk p.2)

/-- At least one of the eight individual rating columns is non-NULL. -/
def ratingsAny (r : Row) : Bool :=
  r.result_rating_overall.isSome || r.result_rating_fragrance.isSome ||
  r.result_rating_aroma.isSome || r.result_rating_flavour.isSome ||
  r.result_rating_aftertaste.isSome || r.result_rating_acidity.isSome ||
  r.result_rating_sweetness.isSome || r.result_rating_mouthfeel.isSome

/-- The emitted dict has a `result.ratings` sub-object. -/
def ratingsPresent (bd : BrewDict) : Bool :=
  match dictGet bd "result" with
  | some (.obj l) => (subGet l "ratings").isSome
  | _ => false

lemma all_optFieldT {P : String × TopVal → Bool} (k : String) (f : α → Leaf)
    (o : Option α) (h : ∀ a, P (k, .leaf (f a)) = true) :
    (optFieldT k f o).all P = true := by
  cases o <;> simp [optFieldT, h]

lemma all_optFieldS {P : String × SubVal → Bool} (k : String) (f : α → Leaf)
    (o : Option α) (h : ∀ a, P (k, .leaf (f a)) = true) :
    (optFieldS k f o).all P = true := by
  cases o <;> simp [optFieldS, h]

lemma all_optFieldL {P : String × Leaf → Bool} (k : String) (f : α → Leaf)
    (o : Option α) (h : ∀ a, P (k, f a) = true) :
    (optFieldL k f o).all P = true := by
  cases o <;> simp [optFieldL, h]

lemma all_wrapObj (k : String) (l : List (String × SubVal))
    (h : l.all (fun p => subValOk p.2) = true) :
    (wrapObj k l).all (fun p => topValOk p.2) = true := by
  unfold wrapObj
  split
  · simp
  · rename_i hemp
    simp only [Bool.not_eq_true] at hemp
    simp [topValOk, hemp, h]

lemma coffeeFields_all (r : Row) :
    (coffeeFields r).all (fun p => subValOk p.2) = true := by
  simp only [coffeeFields, List.all_append, Bool.and_eq_true]
  refine ⟨⟨⟨⟨?_, ?_⟩, ?_⟩, ?_⟩, ?_⟩ <;>
    · apply all_optFieldS
      intro a
      rfl

lemma equipmentFields_all (r : Row) :
    (equipmentFields r).all (fun p => subValOk p.2) = true := by
  simp only [equipmentFields, List.all_append, Bool.and_eq_true]
  exact ⟨all_optFieldS _ _ _ (fun a => rfl), all_optFieldS _ _ _ (fun a => rfl)⟩

lemma ratingFields_all (r : Row) :
    (ratingFields r).all (fun p => leafNotNull p.2) = true := by
  simp only [ratingFields, List.all_append, Bool.and_eq_true]
  refine ⟨⟨⟨⟨⟨⟨⟨?_, ?_⟩, ?_⟩, ?_⟩, ?_⟩, ?_⟩, ?_⟩, ?_⟩ <;>
    · apply all_optFieldL
      intro a
      rfl

lemma resultFields_all (r : Row) :
    (resultFields r).all (fun p => subValOk p.2) = true := by
  simp only [resultFields, List.all_append, Bool.and_eq_true]
  refine ⟨⟨⟨⟨?_, ?_⟩, ?_⟩, ?_⟩, ?_⟩
  · exact all_optFieldS _ _ _ (fun a => rfl)
  · exact all_optFieldS _ _ _ (fun a => rfl)
  · exact all_optFieldS _ _ _ (fun a => rfl)
  · exact all_optFieldS _ _ _ (fun a => rfl)
  · split
    · simp
    · rename_i hemp
      simp only [Bool.not_eq_true] at hemp
      simp [subValOk, hemp, ratingFields_all r]

/-- The emitted brew dict never contains a `null` value or an empty
(sub-)object, for every stored row. -/
lemma noNullsNoEmpty_row (r : Row) : noNullsNoEmpty (row_to_brew_dict r) = true := by
  unfold noNullsNoEmpty row_to_brew_dict
  simp only [List.all_append, Bool.and_eq_true]
  refine ⟨⟨⟨⟨⟨⟨?_, ?_⟩, ?_⟩, ?_⟩, ?_⟩, ?_⟩, ?_⟩
  · simp [reqFields, topValOk, leafNotNull]
  · simp only [optScalarFields, List.all_append, Bool.and_eq_true]
    refine ⟨⟨⟨⟨?_, ?_⟩, ?_⟩, ?_⟩, ?_⟩ <;>
      · apply all_optFieldT
        intro a
        rfl
  · cases hg : r.grind with
    | none => simp [grindFields, hg]
    | some g =>
        by_cases hmem : g ∈ GRIND_ENUM <;>
          simp [grindFields, hg, hmem, topValOk, leafNotNull]
  · exact all_wrapObj _ _ (coffeeFields_all r)
  · cases hp : r.water_ppm <;>
      simp [waterPiece, hp, topValOk, subValOk, leafNotNull]
  · exact all_wrapObj _ _ (equipmentFields_all r)
  · exact all_wrapObj _ _ (resultFields_all r)

/-! ## Sub-object presence (present iff at least one field is non-NULL) -/

lemma optFieldT_isEmpty (k : String) (f : α → Leaf) (o : Option α) :
    (optFieldT k f o).isEmpty = !o.isSome := by
  cases o <;> simp [optFieldT]

lemma optFieldS_isEmpty (k : String) (f : α → Leaf) (o : Option α) :
    (optFieldS k f o).isEmpty = !o.isSome := by
  cases o <;> simp [optFieldS]

lemma optFieldL_isEmpty (k : String) (f : α → Leaf) (o : Option α) :
    (optFieldL k f o).isEmpty = !o.isSome := by
  cases o <;> simp [optFieldL]

lemma isEmpty_coffeeFields (r : Row) :
    (coffeeFields r).isEmpty =
      !(r.coffee_roast_date.isSome || r.coffee_type.isSome ||
        r.coffee_origin.isSome || r.coffee_varietal.isSome ||
        r.coffee_process.isSome) := by
  simp [coffeeFields, isEmpty_append, optFieldS_isEmpty, Bool.and_assoc]

lemma isEmpty_equipmentFields (r : Row) :
    (equipmentFields r).isEmpty =
      !(r.equipment_grinder.isSome || r.equipment_brewer.isSome) := by
  simp [equipmentFields, isEmpty_append, optFieldS_isEmpty]

lemma isEmpty_ratingFields (r : Row) :
    (ratingFields r).isEmpty = !ratingsAny r := by
  simp [ratingFields, ratingsAny, isEmpty_append, optFieldL_isEmpty, Bool.and_assoc]

lemma isEmpty_resultFields (r : Row) :
    (resultFields r).isEmpty =
      !(r.result_tds.isSome || r.result_ey.isSome || r.result_brix.isSome ||
        r.result_tasting_notes.isSome || ratingsAny r) := by
  rw [resultFields]
  cases ha : ratingsAny r
  · rw [isEmpty_ratingFields r, ha]
    simp [isEmpty_append, optFieldS_isEmpty, Bool.and_assoc]
  · rw [isEmpty_ratingFields r, ha]
    simp [isEmpty_append, optFieldS_isEmpty, Bool.and_assoc]

lemma dictGet_wrapObj (k' : String) (l : List (String × SubVal)) (k : String) :
    dictGet (wrapObj k' l) k =
      if l.isEmpty = true then none
      else if (k' == k) = true then some (.obj l) else none := by
  unfold wrapObj
  split <;> by_cases h : (k' == k) = true <;>
    simp_all [dictGet_cons, dictGet_nil]

lemma dictGet_waterPiece (r : Row) (k : String) :
    dictGet (waterPiece r) k =
      if ("water" == k) = true
      then r.water_ppm.map (fun q => .obj [("ppm", .leaf (.num q))])
      else none := by
  cases hp : r.water_ppm <;> by_cases h : ("water" == k) = true <;>
    simp [waterPiece, hp, dictGet_cons, dictGet_nil, h]

lemma dictGet_grindFields_other (r : Row) (k : String)
    (h1 : ("grind" == k) = false) (h2 : ("_invalid_grind" == k) = false) :
    dictGet (grindFields r) k = none := by
  cases hg : r.grind with
  | none => simp [grindFields, hg, dictGet_nil]
  | some g =>
      by_cases hmem : g ∈ GRIND_ENUM <;>
        simp [grindFields, hg, hmem, dictGet_cons, dictGet_nil, h1, h2]

lemma dictGet_row_coffee (r : Row) :
    dictGet (row_to_brew_dict r) "coffee" =
      if (coffeeFields r).isEmpty = true then none
      else some (.obj (coffeeFields r)) := by
  simp [row_to_brew_dict, dictGet_append, reqFields, optScalarFields,
    dictGet_cons, dictGet_nil, dictGet_optFieldT, dictGet_grindFields_other,
    dictGet_wrapObj, dictGet_waterPiece]

lemma dictGet_row_water (r : Row) :
    dictGet (row_to_brew_dict r) "water" =
      r.water_ppm.map (fun q => .obj [("ppm", .leaf (.num q))]) := by
  simp [row_to_brew_dict, dictGet_append, reqFields, optScalarFields,
    dictGet_cons, dictGet_nil, dictGet_optFieldT, dictGet_grindFields_other,
    dictGet_wrapObj, dictGet_waterPiece]

lemma dictGet_row_equipment (r : Row) :
    dictGet (row_to_brew_dict r) "equipment" =
      if (equipmentFields r).isEmpty = true then none
      else some (.obj (equipmentFields r)) := by
  simp [row_to_brew_dict, dictGet_append, reqFields, optScalarFields,
    dictGet_cons, dictGet_nil, dictGet_optFieldT, dictGet_grindFields_other,
    dictGet_wrapObj, dictGet_waterPiece]

lemma dictGet_row_result (r : Row) :
    dictGet (row_to_brew_dict r) "result" =
      if (resultFields r).isEmpty = true then none
      else some (.obj (resultFields r)) := by
  simp [row_to_brew_dict, dictGet_append, reqFields, optScalarFields,
    dictGet_cons, dictGet_nil, dictGet_optFieldT, dictGet_grindFields_other,
    dictGet_wrapObj, dictGet_waterPiece]

lemma subGet_resultFields_ratings (r : Row) :
    subGet (resultFields r) "ratings" =
      if (ratingFields r).isEmpty = true then none
      else some (.obj (ratingFields r)) := by
  by_cases hemp : (ratingFields r).isEmpty = true <;>
    simp [resultFields, subGet_append, subGet_optFieldS, subGet_cons,
      subGet_nil, hemp]

lemma coffee_presence (r : Row) :
    (dictGet (row_to_brew_dict r) "coffee").isSome =
      (r.coffee_roast_date.isSome || r.coffee_type.isSome ||
       r.coffee_origin.isSome || r.coffee_varietal.isSome ||
       r.coffee_process.isSome) := by
  rw [dictGet_row_coffee, isEmpty_coffeeFields]
  cases h : (r.coffee_roast_date.isSome || r.coffee_type.isSome ||
      r.coffee_origin.isSome || r.coffee_varietal.isSome ||
      r.coffee_process.isSome) <;> simp [h]

lemma water_presence (r : Row) :
    (dictGet (row_to_brew_dict r) "water").isSome = r.water_ppm.isSome := by
  rw [dictGet_row_water]
  cases r.water_ppm <;> simp

lemma equipment_presence (r : Row) :
    (dictGet (row_to_brew_dict r) "equipment").isSome =
      (r.equipment_grinder.isSome || r.equipment_brewer.isSome) := by
  rw [dictGet_row_equipment, isEmpty_equipmentFields]
  cases h : (r.equipment_grinder.isSome || r.equipment_brewer.isSome) <;> simp [h]

lemma result_presence (r : Row) :
    (dictGet (row_to_brew_dict r) "result").isSome =
      (r.result_tds.isSome || r.result_ey.isSome || r.result_brix.isSome ||
       r.result_tasting_notes.isSome || ratingsAny r) := by
  rw [dictGet_row_result, isEmpty_resultFields]
  cases h : (r.result_tds.isSome || r.result_ey.isSome || r.result_brix.isSome ||
      r.result_tasting_notes.isSome || ratingsAny r) <;> simp [h]

lemma ratings_presence (r : Row) :
    ratingsPresent (row_to_brew_dict r) = ratingsAny r := by
  unfold ratingsPresent
  rw [dictGet_row_result]
  by_cases hemp : (resultFields r).isEmpty = true
  · rw [if_pos hemp]
    rw [isEmpty_resultFields] at hemp
    simp only [Bool.not_eq_eq_eq_not, Bool.not_true, Bool.or_eq_false_iff] at hemp
    exact hemp.2.symm
  · rw [if_neg hemp]
    show (subGet (resultFields r) "ratings").isSome = ratingsAny r
    rw [subGet_resultFields_ratings, isEmpty_ratingFields]
    cases hA : ratingsAny r <;> simp [hA]

/-! ## db.py: column set, update allow-list, `update_brew` -/

/-- The columns of the `brews` table as declared in `_init_schema`
(name, `NOT NULL`).  `id` is the `INTEGER PRIMARY KEY AUTOINCREMENT`
identity column; `result_ratings` is the legacy JSON ratings blob. -/
def brewsColumns : List (String × Bool) :=
  [("id", true),
   ("date", true),
   ("type", true),
   ("method", false),
   ("dose_g", true),
   ("water_weight_g", true),
   ("water_volume_ml", false),
   ("water_temp_c", false),
   ("grind", false),
   ("duration_s", false),
   ("notes", false),
   ("coffee_roast_date", false),
   ("coffee_type", false),
   ("coffee_origin", false),
   ("coffee_varietal", false),
   ("coffee_process", false),
   ("water_ppm", false),
   ("equipment_grinder", false),
   ("equipment_brewer", false),
   ("result_tds", false),
   ("result_ey", false),
   ("result_brix", false),
   ("result_tasting_notes", false),
   ("result_ratings", false),
   ("result_rating_overall", false),
   ("result_rating_fragrance", false),
   ("result_rating_aroma", false),
   ("result_rating_flavour", false),
   ("result_rating_aftertaste", false),
   ("result_rating_acidity", false),
   ("result_rating_sweetness", false),
   ("result_rating_mouthfeel", false)]

/-- db.py `UPDATABLE_COLUMNS`: the fixed allow-list for `update_brew`. -/
def UPDATABLE_COLUMNS : List String :=
  ["method",
   "grind",
   "water_temp_c",
   "duration_s",
   "notes",
   "result_tds",
   "result_ey",
   "result_brix",
   "result_tasting_notes",
   "result_rating_overall",
   "result_rating_fragrance",
   "result_rating_aroma",
   "result_rating_flavour",
   "result_rating_aftertaste",
   "result_rating_acidity",
   "result_rating_sweetness",
   "result_rating_mouthfeel",
   "coffee_roast_date",
   "coffee_type",
   "coffee_origin",
   "coffee_varietal",
   "coffee_process",
   "water_ppm",
   "equipment_grinder",
   "equipment_brewer"]

/-- A stored row as the `UPDATE` statement sees it: the identity plus
dynamically typed cells, one per non-id column. -/
structure GRow where
  id : Int
  cells : List (String × Leaf)
  deriving DecidableEq, Repr

/-- `SET col₁ = ?, col₂ = ?, …` applied to one row's cells. -/
def applyUpdates (cells updates : List (String × Leaf)) : List (String × Leaf) :=
  updates.foldl
    (fun cs u => cs.map (fun p => if p.1 == u.1 then (p.1, u.2) else p))
    cells

/-- db.py `update_brew`: asserts every updated column is allow-listed
(`AssertionError` = `.error`, raised before any SQL executes), then runs the
`UPDATE` and reports whether a row with the given id was found. -/
def update_brew (brew_id : Int) (updates : List (String × Leaf)) (t : List GRow) :
    Except String (Bool × List GRow) :=
  if updates.all (fun p => p.1 ∈ UPDATABLE_COLUMNS) then
    .ok (t.any (fun row => row.id == brew_id),
         t.map (fun row =>
           if row.id == brew_id
           then { row with cells := applyUpdates row.cells updates }
           else row))
  else .error "Unexpected column names in update dict"

/-- The table after a call to `update_brew`: on the assertion error the
exception propagates before `conn.execute`, so the table is untouched. -/
def update_brew_table (brew_id : Int) (updates : List (String × Leaf))
    (t : List GRow) : List GRow :=
  match update_brew brew_id updates t with
  | .ok (_, t') => t'
  | .error _ => t

/-! ## export.py: document building and grind warnings (lines 102–117) -/

/-- `brew_dict.pop(k)`'s effect on the dict. -/
def dictPop (bd : BrewDict) (k : String) : BrewDict :=
  bd.filter (fun p => !(p.1 == k))

/-- The export loop over the fetched rows: build each brew dict, pop the
`_invalid_grind` sentinel when present and record `(row id, raw value)`
for the warning block. -/
def export_build : List Row → List BrewDict × List (Int × String)
  | [] => ([], [])
  | row :: rest =>
      let bd := row_to_brew_dict row
      let tail := export_build rest
      match dictGet bd "_invalid_grind" with
      | some (.leaf (.str g)) =>
          (dictPop bd "_invalid_grind" :: tail.1, (row.id, g) :: tail.2)
      | _ => (bd :: tail.1, tail.2)

/-- One warning line `  Brew #<id>: grind = '<value>'` (export.py line 117). -/
def warnLine (p : Int × String) : String :=
  "  Brew #" ++ toString p.1 ++ ": grind = " ++
    String.singleton (Char.ofNat 39) ++ p.2 ++ String.singleton (Char.ofNat 39)

/-- The parameter list of `serialise.validate_export_path` (serialise.py
line 159): the single positional parameter `path_str`. -/
def validate_export_path_params : List String := ["path_str"]

/-- The keyword arguments supplied at the call site export.py line 71:
`serialise.validate_export_path(path, fmt=fmt)`. -/
def export_call_kwargs : List String := ["fmt"]

/-- Python keyword-argument binding: a call raises `TypeError`
("got an unexpected keyword argument") unless every keyword argument names
a parameter of the callee. -/
def pyKwargsOk (params kwargs : List String) : Bool :=
  kwargs.all (fun k => params.contains k)

/-- An uncaught exception aborting the export command. -/
inductive ExportError where
  | typeError
  deriving Repr, DecidableEq

/-- The `export` command on the YAML/JSON path (export.py lines 67–127):
its first statement is the call `serialise.validate_export_path(path,
fmt=fmt)` of line 71; only when that call binds its arguments does control
reach the row fetch, the document-building loop and the grind-warning block
of lines 101–117.  The result pairs the built brew dicts with the emitted
warning lines. -/
def export_cmd (t : List Row) :
    Except ExportError (List BrewDict × List String) :=
  if pyKwargsOk validate_export_path_params export_call_kwargs then
    let built := export_build t
    .ok (built.1, built.2.map warnLine)
  else
    .error .typeError

/-! ## models.py: `DATE_PATTERN` and `BrewInput.validate_date` -/

/-- The bare-calendar-date alternative `\d{4}-\d{2}-\d{2}` of
`DATE_PATTERN`, as a predicate on the string's characters. -/
def bareDateL : List Char → Bool
  | [y1, y2, y3, y4, h1, m1, m2, h2, d1, d2] =>
      y1.isDigit && y2.isDigit && y3.isDigit && y4.isDigit && h1 == '-' &&
      m1.isDigit && m2.isDigit && h2 == '-' && d1.isDigit && d2.isDigit
  | _ => false

/-- The full-UTC-datetime alternative
`\d{4}-\d{2}-\d{2}T\d{2}:\d{2}:\d{2}Z` of `DATE_PATTERN`. -/
def fullDTL : List Char → Bool
  | [y1, y2, y3, y4, s1, o1, o2, s2, d1, d2, t, h1, h2, c1, i1, i2, c2, e1, e2, z] =>
      y1.isDigit && y2.isDigit && y3.isDigit && y4.isDigit && s1 == '-' &&
      o1.isDigit && o2.isDigit && s2 == '-' && d1.isDigit && d2.isDigit &&
      t == 'T' && h1.isDigit && h2.isDigit && c1 == ':' && i1.isDigit &&
      i2.isDigit && c2 == ':' && e1.isDigit && e2.isDigit && z == 'Z'
  | _ => false

/-- `DATE_PATTERN.match(v)`: the anchored alternation of the two shapes. -/
def datePatternMatch (s : String) : Bool :=
  fullDTL s.data || bareDateL s.data

def digit2 (a b : Char) : Nat := (a.toNat - 48) * 10 + (b.toNat - 48)

def digit4 (a b c d : Char) : Nat :=
  ((a.toNat - 48) * 1000) + ((b.toNat - 48) * 100) + ((c.toNat - 48) * 10) +
    (d.toNat - 48)

def isLeapYear (y : Nat) : Bool :=
  y % 4 == 0 && (y % 100 != 0 || y % 400 == 0)

def daysInMonth (y m : Nat) : Nat :=
  if m == 2 then (if isLeapYear y then 29 else 28)
  else if m == 4 || m == 6 || m == 9 || m == 11 then 30
  else 31

/-- `datetime.strptime(v, "%Y-%m-%dT%H:%M:%SZ")` succeeding on a string that
already matches the full-datetime shape: the components must form a real
calendar datetime (month 1–12, day within the month, hour ≤ 23,
minute/second ≤ 59, year ≥ `datetime.MINYEAR = 1`). -/
def strptimeOkL : List Char → Bool
  | [y1, y2, y3, y4, _, o1, o2, _, d1, d2, _, h1, h2, _, i1, i2, _, e1, e2, _] =>
      let y := digit4 y1 y2 y3 y4
      let mo := digit2 o1 o2
      let dd := digit2 d1 d2
      let hh := digit2 h1 h2
      let mi := digit2 i1 i2
      let ss := digit2 e1 e2
      decide (1 ≤ y) && decide (1 ≤ mo) && decide (mo ≤ 12) &&
      decide (1 ≤ dd) && decide (dd ≤ daysInMonth y mo) &&
      decide (hh ≤ 23) && decide (mi ≤ 59) && decide (ss ≤ 59)
  | _ => false

/-- models.py `BrewInput.validate_date`: `true` = the value is returned,
`false` = `ValueError`.  The shape check runs first; the calendar check runs
only when the string contains `'T'` (the full-datetime shape); the bare-date
shape is deliberately not calendar-checked (AC-7). -/
def validate_date (s : String) : Bool :=
  if !(datePatternMatch s) then false
  else if s.data.contains 'T' then strptimeOkL s.data
  else true

lemma digit_beq_ne (c x : Char) (hd : c.isDigit = true) (hx : x.isDigit = false) :
    (x == c) = false := by
  by_cases h : x = c
  · rw [h] at hx
    rw [hd] at hx
    exact absurd hx (by simp)
  · exact beq_eq_false_iff_ne.mpr h

/-- A string matching the bare-date shape contains no `'T'`. -/
lemma bareDate_no_T {l : List Char} (h : bareDateL l = true) :
    l.contains 'T' = false := by
  unfold bareDateL at h
  split at h
  · simp only [Bool.and_eq_true, beq_iff_eq] at h
    obtain ⟨⟨⟨⟨⟨⟨⟨⟨⟨h1, h2⟩, h3⟩, h4⟩, h5⟩, h6⟩, h7⟩, h8⟩, h9⟩, h10⟩ := h
    subst h5
    subst h8
    have hdash : ('T' == '-') = false := by decide
    have hne : ∀ c : Char, c.isDigit = true → ¬(('T' : Char) = c) := by
      intro c hc h
      rw [← h] at hc
      exact absurd hc (by decide)
    simp [List.contains, hdash, hne _ h1, hne _ h2, hne _ h3, hne _ h4,
      hne _ h6, hne _ h7, hne _ h9, hne _ h10]
  · exact absurd h (by simp)

/-- A string matching the full-datetime shape contains a `'T'`. -/
lemma fullDT_has_T {l : List Char} (h : fullDTL l = true) :
    l.contains 'T' = true := by
  unfold fullDTL at h
  split at h
  · rename_i heq
    simp only [Bool.and_eq_true] at h
    have ht := h.1.1.1.1.1.1.1.1.1.2
    simp only [beq_iff_eq] at ht
    subst ht
    simp [List.contains]
  · exact absurd h (by simp)

/-! ## commands/import_.py: the v0.4 gate message (`_V04_REQUIRED_MSG`) -/

/-- A single-quote character, kept out of string literals. -/
def sq : String := String.singleton (Char.ofNat 39)

/-- The text before the `{version}` placeholder. -/
def msgPre : String := "Error: This file uses BrewSpec v"

/-- The text after the `{version}` placeholder (verbatim from
`_V04_REQUIRED_MSG`). -/
def msgPost : String :=
  ", which is not supported by BrewLog v0.3.\nBrewLog v0.3 requires BrewSpec v0.4.\n\nTo migrate your file from v0.3 to v0.4, make the following changes:\n  1. Change " ++
  sq ++ "brewspec_version" ++ sq ++ " from \"0.3\" to \"0.4\"\n  2. Move " ++
  sq ++ "tds" ++ sq ++ " (if present) from the brew level to " ++
  sq ++ "result.tds" ++ sq ++ "\n  3. Move " ++
  sq ++ "ey" ++ sq ++ " (if present) from the brew level to " ++
  sq ++ "result.ey" ++ sq ++ "\n  4. Move " ++
  sq ++ "rating" ++ sq ++ " (if present) from the brew level to " ++
  sq ++ "result.ratings.overall" ++ sq ++ "\n  5. Replace any freeform " ++
  sq ++ "grind" ++ sq ++ " values with one of:\n     turkish, espresso, fine, medium_fine, medium, medium_coarse, coarse\n     (or remove the " ++
  sq ++ "grind" ++ sq ++ " field if no match applies)\n\nFull migration guide: https://github.com/coffee-standards/brewspec"

/-- `_V04_REQUIRED_MSG.format(version=…)`. -/
def V04_REQUIRED_MSG (version : String) : String := msgPre ++ version ++ msgPost

/-- The version label shown in the gate message:
`file_version if file_version else "(unknown)"`. -/
def importVersionLabel (v : String) : String := if v = "" then "(unknown)" else v

/-! ## commands/import_.py: the import pipeline -/

/-- The document's `brewspec_version` value as the parser produced it. -/
inductive VersionTag where
  /-- A string scalar (a quoted YAML scalar or a JSON string). -/
  | vstr (s : String)
  /-- An unquoted numeric YAML scalar; `s` is Python's `str()` rendering of
  the parsed number (the YAML scalar `0.4` parses to the float whose `str()`
  is `"0.4"`). -/
  | vnum (s : String)
  /-- The key is absent. -/
  | missing
  deriving DecidableEq, Repr

/-- `str(doc.get("brewspec_version", ""))`. -/
def pyStrTag : VersionTag → String
  | .vstr s => s
  | .vnum s => s
  | .missing => ""

/-- A parsed top-level document. -/
structure ParsedDoc where
  version : VersionTag
  /-- `doc.get("brews", [])`. -/
  brews : List BrewDict
  /-- Modelled from the spec: the outcome of `schema.validate_document` on
  this document.  The bundled v0.4 JSON-schema file
  (`brewspec/spec/brewspec.schema.json`) is not among the sources; §4.1
  specifies a pure validator returning a deterministic list of violation
  messages, empty iff the document is valid, so that outcome is carried
  abstractly with the parsed document. -/
  validationErrors : List String
  deriving DecidableEq, Repr

/-- What the safe deserializer produced for the file's content. -/
inductive ParseOutcome where
  /-- `yaml.YAMLError` / `json.JSONDecodeError`. -/
  | failed
  /-- Parsed, but not a dict (e.g. `yaml.safe_load("")` is `None`). -/
  | notDict
  | parsedDict (d : ParsedDoc)
  deriving DecidableEq, Repr

/-- An import source file as the command observes it. -/
structure ImportFile where
  /-- `Path(path).parts`. -/
  pathParts : List String
  /-- `Path(path).suffix.lower()`. -/
  suffix : String
  fileExists : Bool
  sizeBytes : Nat
  parseResult : ParseOutcome
  deriving DecidableEq, Repr

/-- serialise.py `MAX_BYTES = 10 * 1024 * 1024`. -/
def MAX_IMPORT_BYTES : Nat := 10 * 1024 * 1024

inductive PathError where
  | traversal
  | missing
  | tooLarge
  deriving DecidableEq, Repr

/-- serialise.py `validate_import_path`: rejects `..` components, then a
missing file, then a file over 10 MiB — and nothing else (in particular
there is no emptiness check). -/
def validate_import_path (f : ImportFile) : Option PathError :=
  if ".." ∈ f.pathParts then some .traversal
  else if !f.fileExists then some .missing
  else if f.sizeBytes > MAX_IMPORT_BYTES then some .tooLarge
  else none

/-- The observable steps of the import pipeline that touch file content or
storage, in execution order. -/
inductive Stage where
  | readContent
  | parseContent
  | schemaValidate
  | dbWrite
  deriving DecidableEq, Repr

inductive ImportError where
  | pathError (e : PathError)
  | badExtension
  | parseFailed
  | notADocument
  | versionRejected (msg : String)
  | validationFailed (errs : List String)
  | insertFailed
  deriving DecidableEq, Repr

/-- The insert loop inside the transaction: ids are assigned sequentially;
the first failure aborts the loop. -/
def insertLoop (rows : List Row) (nextId : Int) : List BrewDict → Except String (List Row)
  | [] => .ok rows
  | bd :: rest =>
      match insert_brew_dict bd nextId with
      | .error e => .error e
      | .ok r => insertLoop (rows ++ [r]) (nextId + 1) rest

/-- `BEGIN; …inserts…; COMMIT` with `ROLLBACK` on any failure
(import_.py lines 97–106): on success the staged rows become the table; on
failure the staged rows are discarded and the table is unchanged. -/
def import_transaction (t : List Row) (startId : Int) (brews : List BrewDict) :
    List Row × Bool :=
  match insertLoop t startId brews with
  | .ok s => (s, true)
  | .error _ => (t, false)

structure ImportOutcome where
  result : Except ImportError Nat
  table : List Row
  ran : List Stage
  deriving Repr

/-- commands/import_.py `import_cmd`: path validation, extension detection,
read + parse, document-shape check, version gate, schema validation, then
the atomic multi-row insert.  `t` is the committed table before the call and
`startId` the next AUTOINCREMENT id. -/
def import_cmd (f : ImportFile) (t : List Row) (startId : Int) : ImportOutcome :=
  match validate_import_path f with
  | some e => ⟨.error (.pathError e), t, []⟩
  | none =>
    if f.suffix ∈ [".yaml", ".yml", ".json"] then
      match f.parseResult with
      | .failed => ⟨.error .parseFailed, t, [.readContent, .parseContent]⟩
      | .notDict => ⟨.error .notADocument, t, [.readContent, .parseContent]⟩
      | .parsedDict d =>
          let fileVersion := pyStrTag d.version
          if fileVersion ≠ "0.4" then
            ⟨.error (.versionRejected (V04_REQUIRED_MSG (importVersionLabel fileVersion))),
              t, [.readContent, .parseContent]⟩
          else if d.validationErrors ≠ [] then
            ⟨.error (.validationFailed d.validationErrors), t,
              [.readContent, .parseContent, .schemaValidate]⟩
          else
            match import_transaction t startId d.brews with
            | (t', true) =>
                ⟨.ok d.brews.length, t',
                  [.readContent, .parseContent, .schemaValidate, .dbWrite]⟩
            | (t', false) =>
                ⟨.error .insertFailed, t',
                  [.readContent, .parseContent, .schemaValidate, .dbWrite]⟩
    else ⟨.error .badExtension, t, []⟩

/-! ## Transaction facts -/

lemma insertLoop_ok (brews : List BrewDict) :
    ∀ (rows : List Row) (nextId : Int) (s : List Row),
      insertLoop rows nextId brews = .ok s →
      ∃ extra, s = rows ++ extra ∧ extra.length = brews.length := by
  induction brews with
  | nil =>
      intro rows nextId s h
      simp only [insertLoop] at h
      exact ⟨[], by simpa using h.symm, rfl⟩
  | cons bd rest ih =>
      intro rows nextId s h
      simp only [insertLoop] at h
      cases hi : insert_brew_dict bd nextId with
      | error e => rw [hi] at h; exact absurd h (by simp)
      | ok r =>
          rw [hi] at h
          obtain ⟨extra, hs, hlen⟩ := ih (rows ++ [r]) (nextId + 1) s h
          exact ⟨r :: extra, by simpa using hs, by simpa using hlen⟩

lemma insertLoop_docs (ds : List BrewDoc) :
    ∀ (rows : List Row) (nextId : Int),
      ∃ s, insertLoop rows nextId (ds.map docToDict) = .ok s ∧
        s.length = rows.length + ds.length := by
  induction ds with
  | nil => intro rows nextId; exact ⟨rows, rfl, by simp⟩
  | cons d rest ih =>
      intro rows nextId
      obtain ⟨s, hs, hlen⟩ := ih (rows ++ [rowOf d nextId]) (nextId + 1)
      refine ⟨s, ?_, ?_⟩
      · simp only [List.map_cons, insertLoop, insert_brew_dict_docToDict]
        exact hs
      · rw [hlen]
        simp
        omega

/-! ## The v0.4 document schema (spec-modelled) -/

/-- `lo ≤ len(s) ≤ hi` (Python `len` and `String.length` both count unicode
code points). -/
def strLenOk (s : String) (lo hi : Nat) : Bool :=
  decide (lo ≤ s.length) && decide (s.length ≤ hi)

/-- An optional brew-level key that must be a string satisfying `check`. -/
def okStr (v : Option TopVal) (check : String → Bool) : Bool :=
  match v with
  | none => true
  | some (.leaf (.str s)) => check s
  | _ => false

/-- An optional brew-level key that must be a number satisfying `check`. -/
def okNum (v : Option TopVal) (check : Rat → Bool) : Bool :=
  match v with
  | none => true
  | some (.leaf (.num q)) => check q
  | _ => false

/-- An optional brew-level key that must be an integer satisfying `check`
(JSON-schema `integer`: a number with zero fractional part). -/
def okInt (v : Option TopVal) (check : Int → Bool) : Bool :=
  match v with
  | none => true
  | some (.leaf (.num q)) => q.den == 1 && check q.num
  | _ => false

/-- As `okStr`, one level down. -/
def sOkStr (v : Option SubVal) (check : String → Bool) : Bool :=
  match v with
  | none => true
  | some (.leaf (.str s)) => check s
  | _ => false

/-- As `okNum`, one level down. -/
def sOkNum (v : Option SubVal) (check : Rat → Bool) : Bool :=
  match v with
  | none => true
  | some (.leaf (.num q)) => check q
  | _ => false

/-- A rating dimension: an optional integer between 1 and 5. -/
def lOkRating (v : Option Leaf) : Bool :=
  match v with
  | none => true
  | some (.num q) => q.den == 1 && decide (1 ≤ q.num) && decide (q.num ≤ 5)
  | _ => false

/-- Modelled from the spec: the `coffee` sub-schema of the bundled v0.4
JSON schema (not among the sources; reconstructed from §3/§4.2 and the
schema test suite): closed key set, `roast_date` a bare calendar date,
`type` in the classification enum, `origin` a non-empty array of non-empty
strings of at most 100 characters, `varietal`/`process` strings of 1–100
characters. -/
def coffeeSchemaValid (l : List (String × SubVal)) : Bool :=
  l.all (fun p => p.1 ∈ ["roast_date", "type", "origin", "varietal", "process"]) &&
  sOkStr (subGet l "roast_date") (fun s => bareDateL s.data) &&
  sOkStr (subGet l "type") (fun s => s ∈ COFFEE_TYPE_ENUM) &&
  (match subGet l "origin" with
   | none => true
   | some (.leaf (.strList ls)) => !ls.isEmpty && ls.all (fun e => strLenOk e 1 100)
   | _ => false) &&
  sOkStr (subGet l "varietal") (fun s => strLenOk s 1 100) &&
  sOkStr (subGet l "process") (fun s => strLenOk s 1 100)

/-- Modelled from the spec: the `water` sub-schema (`ppm ≥ 0`). -/
def waterSchemaValid (l : List (String × SubVal)) : Bool :=
  l.all (fun p => p.1 ∈ ["ppm"]) &&
  sOkNum (subGet l "ppm") (fun q => decide (0 ≤ q))

/-- Modelled from the spec: the `equipment` sub-schema. -/
def equipmentSchemaValid (l : List (String × SubVal)) : Bool :=
  l.all (fun p => p.1 ∈ ["grinder", "brewer"]) &&
  sOkStr (subGet l "grinder") (fun s => strLenOk s 1 100) &&
  sOkStr (subGet l "brewer") (fun s => strLenOk s 1 100)

/-- Modelled from the spec: the `result.ratings` sub-schema — eight
independent integer dimensions, each 1–5. -/
def ratingsSchemaValid (l : List (String × Leaf)) : Bool :=
  l.all (fun p => p.1 ∈ ["overall", "fragrance", "aroma", "flavour",
    "aftertaste", "acidity", "sweetness", "mouthfeel"]) &&
  lOkRating (leafGet l "overall") &&
  lOkRating (leafGet l "fragrance") &&
  lOkRating (leafGet l "aroma") &&
  lOkRating (leafGet l "flavour") &&
  lOkRating (leafGet l "aftertaste") &&
  lOkRating (leafGet l "acidity") &&
  lOkRating (leafGet l "sweetness") &&
  lOkRating (leafGet l "mouthfeel")

/-- Modelled from the spec: the `result` sub-schema — `tds`/`ey` > 0,
`brix ≥ 0`, `tasting_notes` 1–2000 characters, nested `ratings`. -/
def resultSchemaValid (l : List (String × SubVal)) : Bool :=
  l.all (fun p => p.1 ∈ ["tds", "ey", "brix", "tasting_notes", "ratings"]) &&
  sOkNum (subGet l "tds") (fun q => decide (0 < q)) &&
  sOkNum (subGet l "ey") (fun q => decide (0 < q)) &&
  sOkNum (subGet l "brix") (fun q => decide (0 ≤ q)) &&
  sOkStr (subGet l "tasting_notes") (fun s => strLenOk s 1 2000) &&
  (match subGet l "ratings" with
   | none => true
   | some (.obj rl) => ratingsSchemaValid rl
   | _ => false)

/-- Modelled from the spec: one brew object of the bundled v0.4 JSON schema
(`brewspec.schema.json` is not among the sources; reconstructed from
§3/§4.1/§4.2 and the v0.4 schema test suite): closed key set
(`additionalProperties: false` — no legacy brew-level `tds`/`ey`/`rating`),
`date` in one of the two textual shapes (no calendar check at schema level),
`type` in the brew-method enum, positive required masses, bounded optional
scalars, `grind` restricted to the seven-value enum, and the four closed
sub-objects (each of which may be present and empty). -/
def brewSchemaValid (bd : BrewDict) : Bool :=
  bd.all (fun p => p.1 ∈ ["date", "type", "dose_g", "water_weight_g",
    "method", "water_volume_ml", "water_temp_c", "grind", "duration_s",
    "notes", "coffee", "water", "equipment", "result"]) &&
  (match dictGet bd "date" with
   | some (.leaf (.str s)) => datePatternMatch s
   | _ => false) &&
  (match dictGet bd "type" with
   | some (.leaf (.str s)) => decide (s ∈ BREW_TYPE_ENUM)
   | _ => false) &&
  (match dictGet bd "dose_g" with
   | some (.leaf (.num q)) => decide (0 < q)
   | _ => false) &&
  (match dictGet bd "water_weight_g" with
   | some (.leaf (.num q)) => decide (0 < q)
   | _ => false) &&
  okStr (dictGet bd "method") (fun s => strLenOk s 1 100) &&
  okNum (dictGet bd "water_volume_ml") (fun q => decide (0 < q)) &&
  okNum (dictGet bd "water_temp_c") (fun q => decide (0 ≤ q) && decide (q ≤ 100)) &&
  okStr (dictGet bd "grind") (fun s => s ∈ GRIND_ENUM) &&
  okInt (dictGet bd "duration_s") (fun n => decide (0 < n)) &&
  okStr (dictGet bd "notes") (fun s => strLenOk s 1 2000) &&
  (match dictGet bd "coffee" with
   | none => true
   | some (.obj l) => coffeeSchemaValid l
   | _ => false) &&
  (match dictGet bd "water" with
   | none => true
   | some (.obj l) => waterSchemaValid l
   | _ => false) &&
  (match dictGet bd "equipment" with
   | none => true
   | some (.obj l) => equipmentSchemaValid l
   | _ => false) &&
  (match dictGet bd "result" with
   | none => true
   | some (.obj l) => resultSchemaValid l
   | _ => false)

/-- Modelled from the spec: a whole v0.4 document — version const `"0.4"`,
a non-empty `brews` array, every brew valid. -/
def documentSchemaValid (version : String) (brews : List BrewDict) : Bool :=
  version == "0.4" && !brews.isEmpty && brews.all brewSchemaValid

/-! ## Validity of stored cell values

Modelled from the spec (§3): the constraints every value written through the
validated insert/update paths satisfies, column by column — with the single
deliberate exception of `grind`, which legacy rows may hold as unconstrained
free text.  The legacy `result_ratings` blob is likewise unconstrained. -/

def optCheckB (o : Option α) (f : α → Bool) : Bool :=
  match o with
  | none => true
  | some a => f a

/-- Modelled from the spec: validity of a stored row's non-grind cells. -/
def rowValid (r : Row) : Bool :=
  datePatternMatch r.date &&
  decide (r.type ∈ BREW_TYPE_ENUM) &&
  decide (0 < r.dose_g) &&
  decide (0 < r.water_weight_g) &&
  optCheckB r.method (fun s => strLenOk s 1 100) &&
  optCheckB r.water_volume_ml (fun q => decide (0 < q)) &&
  optCheckB r.water_temp_c (fun q => decide (0 ≤ q) && decide (q ≤ 100)) &&
  optCheckB r.duration_s (fun n => decide (0 < n)) &&
  optCheckB r.notes (fun s => strLenOk s 1 2000) &&
  optCheckB r.coffee_roast_date (fun s => bareDateL s.data) &&
  optCheckB r.coffee_type (fun s => decide (s ∈ COFFEE_TYPE_ENUM)) &&
  optCheckB r.coffee_origin (fun ls => !ls.isEmpty && ls.all (fun e => strLenOk e 1 100)) &&
  optCheckB r.coffee_varietal (fun s => strLenOk s 1 100) &&
  optCheckB r.coffee_process (fun s => strLenOk s 1 100) &&
  optCheckB r.water_ppm (fun q => decide (0 ≤ q)) &&
  optCheckB r.equipment_grinder (fun s => strLenOk s 1 100) &&
  optCheckB r.equipment_brewer (fun s => strLenOk s 1 100) &&
  optCheckB r.result_tds (fun q => decide (0 < q)) &&
  optCheckB r.result_ey (fun q => decide (0 < q)) &&
  optCheckB r.result_brix (fun q => decide (0 ≤ q)) &&
  optCheckB r.result_tasting_notes (fun s => strLenOk s 1 2000) &&
  optCheckB r.result_rating_overall (fun n => decide (1 ≤ n) && decide (n ≤ 5)) &&
  optCheckB r.result_rating_fragrance (fun n => decide (1 ≤ n) && decide (n ≤ 5)) &&
  optCheckB r.result_rating_aroma (fun n => decide (1 ≤ n) && decide (n ≤ 5)) &&
  optCheckB r.result_rating_flavour (fun n => decide (1 ≤ n) && decide (n ≤ 5)) &&
  optCheckB r.result_rating_aftertaste (fun n => decide (1 ≤ n) && decide (n ≤ 5)) &&
  optCheckB r.result_rating_acidity (fun n => decide (1 ≤ n) && decide (n ≤ 5)) &&
  optCheckB r.result_rating_sweetness (fun n => decide (1 ≤ n) && decide (n ≤ 5)) &&
  optCheckB r.result_rating_mouthfeel (fun n => decide (1 ≤ n) && decide (n ≤ 5))

/-! ## Evaluation of the serializer's output, key by key -/

lemma grindFields_none (r : Row) (hg : r.grind = none) : grindFields r = [] := by
  simp [grindFields, hg]

lemma grindFields_valid (r : Row) (g : String) (hg : r.grind = some g)
    (hm : g ∈ GRIND_ENUM) :
    grindFields r = [("grind", .leaf (.str g))] := by
  simp [grindFields, hg, hm]

lemma grindFields_invalid (r : Row) (g : String) (hg : r.grind = some g)
    (hm : g ∉ GRIND_ENUM) :
    grindFields r = [("_invalid_grind", .leaf (.str g))] := by
  simp [grindFields, hg, hm]

lemma dictGet_row_date (r : Row) :
    dictGet (row_to_brew_dict r) "date" = some (.leaf (.str r.date)) := by
  simp [row_to_brew_dict, dictGet_append, reqFields, optScalarFields,
    dictGet_cons, dictGet_nil, dictGet_optFieldT, dictGet_grindFields_other,
    dictGet_wrapObj, dictGet_waterPiece]

lemma dictGet_row_type (r : Row) :
    dictGet (row_to_brew_dict r) "type" = some (.leaf (.str r.type)) := by
  simp [row_to_brew_dict, dictGet_append, reqFields, optScalarFields,
    dictGet_cons, dictGet_nil, dictGet_optFieldT, dictGet_grindFields_other,
    dictGet_wrapObj, dictGet_waterPiece]

lemma dictGet_row_dose (r : Row) :
    dictGet (row_to_brew_dict r) "dose_g" = some (.leaf (.num r.dose_g)) := by
  simp [row_to_brew_dict, dictGet_append, reqFields, optScalarFields,
    dictGet_cons, dictGet_nil, dictGet_optFieldT, dictGet_grindFields_other,
    dictGet_wrapObj, dictGet_waterPiece]

lemma dictGet_row_weight (r : Row) :
    dictGet (row_to_brew_dict r) "water_weight_g" =
      some (.leaf (.num r.water_weight_g)) := by
  simp [row_to_brew_dict, dictGet_append, reqFields, optScalarFields,
    dictGet_cons, dictGet_nil, dictGet_optFieldT, dictGet_grindFields_other,
    dictGet_wrapObj, dictGet_waterPiece]

lemma dictGet_row_method (r : Row) :
    dictGet (row_to_brew_dict r) "method" =
      r.method.map (fun s => .leaf (.str s)) := by
  cases h : r.method <;>
    simp [row_to_brew_dict, dictGet_append, reqFields, optScalarFields,
      dictGet_cons, dictGet_nil, dictGet_optFieldT, dictGet_grindFields_other,
      dictGet_wrapObj, dictGet_waterPiece, h]

lemma dictGet_row_volume (r : Row) :
    dictGet (row_to_brew_dict r) "water_volume_ml" =
      r.water_volume_ml.map (fun q => .leaf (.num q)) := by
  cases h : r.water_volume_ml <;>
    simp [row_to_brew_dict, dictGet_append, reqFields, optScalarFields,
      dictGet_cons, dictGet_nil, dictGet_optFieldT, dictGet_grindFields_other,
      dictGet_wrapObj, dictGet_waterPiece, h]

lemma dictGet_row_temp (r : Row) :
    dictGet (row_to_brew_dict r) "water_temp_c" =
      r.water_temp_c.map (fun q => .leaf (.num q)) := by
  cases h : r.water_temp_c <;>
    simp [row_to_brew_dict, dictGet_append, reqFields, optScalarFields,
      dictGet_cons, dictGet_nil, dictGet_optFieldT, dictGet_grindFields_other,
      dictGet_wrapObj, dictGet_waterPiece, h]

lemma dictGet_row_duration (r : Row) :
    dictGet (row_to_brew_dict r) "duration_s" =
      r.duration_s.map (fun n => .leaf (intLeaf n)) := by
  cases h : r.duration_s <;>
    simp [row_to_brew_dict, dictGet_append, reqFields, optScalarFields,
      dictGet_cons, dictGet_nil, dictGet_optFieldT, dictGet_grindFields_other,
      dictGet_wrapObj, dictGet_waterPiece, h]

lemma dictGet_row_notes (r : Row) :
    dictGet (row_to_brew_dict r) "notes" =
      r.notes.map (fun s => .leaf (.str s)) := by
  cases h : r.notes <;>
    simp [row_to_brew_dict, dictGet_append, reqFields, optScalarFields,
      dictGet_cons, dictGet_nil, dictGet_optFieldT, dictGet_grindFields_other,
      dictGet_wrapObj, dictGet_waterPiece, h]

lemma dictGet_row_grind_none (r : Row) (hg : r.grind = none) :
    dictGet (row_to_brew_dict r) "grind" = none := by
  simp [row_to_brew_dict, dictGet_append, reqFields, optScalarFields,
    dictGet_cons, dictGet_nil, dictGet_optFieldT, grindFields_none r hg,
    dictGet_wrapObj, dictGet_waterPiece]

lemma dictGet_row_grind_valid (r : Row) (g : String) (hg : r.grind = some g)
    (hm : g ∈ GRIND_ENUM) :
    dictGet (row_to_brew_dict r) "grind" = some (.leaf (.str g)) := by
  simp [row_to_brew_dict, dictGet_append, reqFields, optScalarFields,
    dictGet_cons, dictGet_nil, dictGet_optFieldT, grindFields_valid r g hg hm,
    dictGet_wrapObj, dictGet_waterPiece]

/-- An out-of-enum grind is never emitted under the `grind` key. -/
lemma dictGet_row_grind_invalid (r : Row) (g : String) (hg : r.grind = some g)
    (hm : g ∉ GRIND_ENUM) :
    dictGet (row_to_brew_dict r) "grind" = none := by
  simp [row_to_brew_dict, dictGet_append, reqFields, optScalarFields,
    dictGet_cons, dictGet_nil, dictGet_optFieldT, grindFields_invalid r g hg hm,
    dictGet_wrapObj, dictGet_waterPiece]

/-- An out-of-enum grind is handed to the caller under the sentinel key. -/
lemma dictGet_row_sentinel_invalid (r : Row) (g : String) (hg : r.grind = some g)
    (hm : g ∉ GRIND_ENUM) :
    dictGet (row_to_brew_dict r) "_invalid_grind" = some (.leaf (.str g)) := by
  simp [row_to_brew_dict, dictGet_append, reqFields, optScalarFields,
    dictGet_cons, dictGet_nil, dictGet_optFieldT, grindFields_invalid r g hg hm,
    dictGet_wrapObj, dictGet_waterPiece]

lemma dictGet_row_sentinel_none (r : Row) (hg : r.grind = none) :
    dictGet (row_to_brew_dict r) "_invalid_grind" = none := by
  simp [row_to_brew_dict, dictGet_append, reqFields, optScalarFields,
    dictGet_cons, dictGet_nil, dictGet_optFieldT, grindFields_none r hg,
    dictGet_wrapObj, dictGet_waterPiece]

lemma dictGet_row_sentinel_valid (r : Row) (g : String) (hg : r.grind = some g)
    (hm : g ∈ GRIND_ENUM) :
    dictGet (row_to_brew_dict r) "_invalid_grind" = none := by
  simp [row_to_brew_dict, dictGet_append, reqFields, optScalarFields,
    dictGet_cons, dictGet_nil, dictGet_optFieldT, grindFields_valid r g hg hm,
    dictGet_wrapObj, dictGet_waterPiece]

/-! ## Popping the sentinel -/

lemma dictPop_append (l₁ l₂ : BrewDict) (k : String) :
    dictPop (l₁ ++ l₂) k = dictPop l₁ k ++ dictPop l₂ k := by
  simp [dictPop, List.filter_append]

lemma dictPop_optFieldT (k : String) (f : α → Leaf) (o : Option α) (k' : String)
    (h : (k == k') = false) :
    dictPop (optFieldT k f o) k' = optFieldT k f o := by
  cases o <;> simp [dictPop, optFieldT, h]

lemma dictPop_wrapObj (k' : String) (l : List (String × SubVal)) (k : String)
    (h : (k' == k) = false) :
    dictPop (wrapObj k' l) k = wrapObj k' l := by
  unfold wrapObj
  split <;> simp [dictPop, h]

lemma dictPop_waterPiece (r : Row) (k : String) (h : ("water" == k) = false) :
    dictPop (waterPiece r) k = waterPiece r := by
  cases hp : r.water_ppm <;> simp [waterPiece, dictPop, hp, h]

/-- Popping the sentinel from the dict of a row with an out-of-enum grind
yields exactly the dict of the same row with a NULL grind column. -/
lemma pop_sentinel_invalid (r : Row) (g : String) (hg : r.grind = some g)
    (hm : g ∉ GRIND_ENUM) :
    dictPop (row_to_brew_dict r) "_invalid_grind" =
      row_to_brew_dict { r with grind := none } := by
  have hreq : dictPop (reqFields r) "_invalid_grind" = reqFields r := by
    simp [dictPop, reqFields]
  have hopt : dictPop (optScalarFields r) "_invalid_grind" = optScalarFields r := by
    simp [optScalarFields, dictPop_append, dictPop_optFieldT]
  have hgf : dictPop (grindFields r) "_invalid_grind" = [] := by
    simp [grindFields_invalid r g hg hm, dictPop]
  have hg' : grindFields { r with grind := none } = [] := grindFields_none _ rfl
  have hw1 : dictPop (wrapObj "coffee" (coffeeFields r)) "_invalid_grind" =
      wrapObj "coffee" (coffeeFields r) := dictPop_wrapObj _ _ _ (by decide)
  have hw2 : dictPop (wrapObj "equipment" (equipmentFields r)) "_invalid_grind" =
      wrapObj "equipment" (equipmentFields r) := dictPop_wrapObj _ _ _ (by decide)
  have hw3 : dictPop (wrapObj "result" (resultFields r)) "_invalid_grind" =
      wrapObj "result" (resultFields r) := dictPop_wrapObj _ _ _ (by decide)
  have hw4 : dictPop (waterPiece r) "_invalid_grind" = waterPiece r :=
    dictPop_waterPiece _ _ (by decide)
  simp only [row_to_brew_dict, dictPop_append, hreq, hopt, hgf, hg',
    hw1, hw2, hw3, hw4]
  rfl

/-! ## A valid row's emitted brew dict passes the v0.4 schema -/

lemma okStr_map (o : Option String) (c : String → Bool) :
    okStr (o.map (fun s => .leaf (.str s))) c = optCheckB o c := by
  cases o <;> simp [okStr, optCheckB]

lemma okNum_map (o : Option Rat) (c : Rat → Bool) :
    okNum (o.map (fun q => .leaf (.num q))) c = optCheckB o c := by
  cases o <;> simp [okNum, optCheckB]

lemma okInt_map (o : Option Int) (c : Int → Bool) :
    okInt (o.map (fun n => .leaf (intLeaf n))) c = optCheckB o c := by
  cases o <;> simp [okInt, optCheckB, intLeaf]

lemma sOkStr_map (o : Option String) (c : String → Bool) :
    sOkStr (o.map (fun s => .leaf (.str s))) c = optCheckB o c := by
  cases o <;> simp [sOkStr, optCheckB]

lemma sOkNum_map (o : Option Rat) (c : Rat → Bool) :
    sOkNum (o.map (fun q => .leaf (.num q))) c = optCheckB o c := by
  cases o <;> simp [sOkNum, optCheckB]

lemma lOkRating_map (o : Option Int) :
    lOkRating (o.map intLeaf) =
      optCheckB o (fun n => decide (1 ≤ n) && decide (n ≤ 5)) := by
  cases o <;> simp [lOkRating, optCheckB, intLeaf]

lemma subGet_coffeeFields_roast (r : Row) :
    subGet (coffeeFields r) "roast_date" =
      r.coffee_roast_date.map (fun v => .leaf (.str v)) := by
  cases h : r.coffee_roast_date <;>
    simp [coffeeFields, subGet_append, subGet_optFieldS, h]

lemma subGet_coffeeFields_type (r : Row) :
    subGet (coffeeFields r) "type" =
      r.coffee_type.map (fun v => .leaf (.str v)) := by
  cases h : r.coffee_type <;>
    simp [coffeeFields, subGet_append, subGet_optFieldS, h]

lemma subGet_coffeeFields_origin (r : Row) :
    subGet (coffeeFields r) "origin" =
      r.coffee_origin.map (fun v => .leaf (.strList v)) := by
  cases h : r.coffee_origin <;>
    simp [coffeeFields, subGet_append, subGet_optFieldS, h]

lemma subGet_coffeeFields_varietal (r : Row) :
    subGet (coffeeFields r) "varietal" =
      r.coffee_varietal.map (fun v => .leaf (.str v)) := by
  cases h : r.coffee_varietal <;>
    simp [coffeeFields, subGet_append, subGet_optFieldS, h]

lemma subGet_coffeeFields_process (r : Row) :
    subGet (coffeeFields r) "process" =
      r.coffee_process.map (fun v => .leaf (.str v)) := by
  cases h : r.coffee_process <;>
    simp [coffeeFields, subGet_append, subGet_optFieldS, h]

lemma subGet_equipmentFields_grinder (r : Row) :
    subGet (equipmentFields r) "grinder" =
      r.equipment_grinder.map (fun v => .leaf (.str v)) := by
  cases h : r.equipment_grinder <;>
    simp [equipmentFields, subGet_append, subGet_optFieldS, h]

lemma subGet_equipmentFields_brewer (r : Row) :
    subGet (equipmentFields r) "brewer" =
      r.equipment_brewer.map (fun v => .leaf (.str v)) := by
  cases h : r.equipment_brewer <;>
    simp [equipmentFields, subGet_append, subGet_optFieldS, h]

lemma subGet_resultFields_tds (r : Row) :
    subGet (resultFields r) "tds" =
      r.result_tds.map (fun v => .leaf (.num v)) := by
  cases h : r.result_tds <;> by_cases hemp : (ratingFields r).isEmpty = true <;>
    simp [resultFields, subGet_append, subGet_optFieldS, subGet_cons,
      subGet_nil, hemp, h]

lemma subGet_resultFields_ey (r : Row) :
    subGet (resultFields r) "ey" =
      r.result_ey.map (fun v => .leaf (.num v)) := by
  cases h : r.result_ey <;> by_cases hemp : (ratingFields r).isEmpty = true <;>
    simp [resultFields, subGet_append, subGet_optFieldS, subGet_cons,
      subGet_nil, hemp, h]

lemma subGet_resultFields_brix (r : Row) :
    subGet (resultFields r) "brix" =
      r.result_brix.map (fun v => .leaf (.num v)) := by
  cases h : r.result_brix <;> by_cases hemp : (ratingFields r).isEmpty = true <;>
    simp [resultFields, subGet_append, subGet_optFieldS, subGet_cons,
      subGet_nil, hemp, h]

lemma subGet_resultFields_tasting (r : Row) :
    subGet (resultFields r) "tasting_notes" =
      r.result_tasting_notes.map (fun v => .leaf (.str v)) := by
  cases h : r.result_tasting_notes <;>
    by_cases hemp : (ratingFields r).isEmpty = true <;>
      simp [resultFields, subGet_append, subGet_optFieldS, subGet_cons,
        subGet_nil, hemp, h]

lemma leafGet_ratingFields_overall (r : Row) :
    leafGet (ratingFields r) "overall" = r.result_rating_overall.map intLeaf := by
  cases h : r.result_rating_overall <;>
    simp [ratingFields, leafGet_append, leafGet_optFieldL, h]

lemma leafGet_ratingFields_fragrance (r : Row) :
    leafGet (ratingFields r) "fragrance" = r.result_rating_fragrance.map intLeaf := by
  cases h : r.result_rating_fragrance <;>
    simp [ratingFields, leafGet_append, leafGet_optFieldL, h]

lemma leafGet_ratingFields_aroma (r : Row) :
    leafGet (ratingFields r) "aroma" = r.result_rating_aroma.map intLeaf := by
  cases h : r.result_rating_aroma <;>
    simp [ratingFields, leafGet_append, leafGet_optFieldL, h]

lemma leafGet_ratingFields_flavour (r : Row) :
    leafGet (ratingFields r) "flavour" = r.result_rating_flavour.map intLeaf := by
  cases h : r.result_rating_flavour <;>
    simp [ratingFields, leafGet_append, leafGet_optFieldL, h]

lemma leafGet_ratingFields_aftertaste (r : Row) :
    leafGet (ratingFields r) "aftertaste" = r.result_rating_aftertaste.map intLeaf := by
  cases h : r.result_rating_aftertaste <;>
    simp [ratingFields, leafGet_append, leafGet_optFieldL, h]

lemma leafGet_ratingFields_acidity (r : Row) :
    leafGet (ratingFields r) "acidity" = r.result_rating_acidity.map intLeaf := by
  cases h : r.result_rating_acidity <;>
    simp [ratingFields, leafGet_append, leafGet_optFieldL, h]

lemma leafGet_ratingFields_sweetness (r : Row) :
    leafGet (ratingFields r) "sweetness" = r.result_rating_sweetness.map intLeaf := by
  cases h : r.result_rating_sweetness <;>
    simp [ratingFields, leafGet_append, leafGet_optFieldL, h]

lemma leafGet_ratingFields_mouthfeel (r : Row) :
    leafGet (ratingFields r) "mouthfeel" = r.result_rating_mouthfeel.map intLeaf := by
  cases h : r.result_rating_mouthfeel <;>
    simp [ratingFields, leafGet_append, leafGet_optFieldL, h]

lemma all_wrapObj_key {P : String × TopVal → Bool} (k : String)
    (l : List (String × SubVal)) (h : P (k, .obj l) = true) :
    (wrapObj k l).all P = true := by
  unfold wrapObj
  split <;> simp [h]

lemma coffeeSchemaValid_row (r : Row)
    (hroast : optCheckB r.coffee_roast_date (fun s => bareDateL s.data) = true)
    (hctype : optCheckB r.coffee_type (fun s => decide (s ∈ COFFEE_TYPE_ENUM)) = true)
    (horig : optCheckB r.coffee_origin
      (fun ls => !ls.isEmpty && ls.all (fun e => strLenOk e 1 100)) = true)
    (hvar : optCheckB r.coffee_varietal (fun s => strLenOk s 1 100) = true)
    (hproc : optCheckB r.coffee_process (fun s => strLenOk s 1 100) = true) :
    coffeeSchemaValid (coffeeFields r) = true := by
  unfold coffeeSchemaValid
  simp only [Bool.and_eq_true]
  refine ⟨⟨⟨⟨⟨?_, ?_⟩, ?_⟩, ?_⟩, ?_⟩, ?_⟩
  · simp only [coffeeFields, List.all_append, Bool.and_eq_true]
    refine ⟨⟨⟨⟨?_, ?_⟩, ?_⟩, ?_⟩, ?_⟩ <;>
      exact all_optFieldS _ _ _ (fun a => rfl)
  · rw [subGet_coffeeFields_roast, sOkStr_map]
    exact hroast
  · rw [subGet_coffeeFields_type, sOkStr_map]
    exact hctype
  · rw [subGet_coffeeFields_origin]
    cases ho : r.coffee_origin with
    | none => rfl
    | some ls =>
        rw [ho] at horig
        exact horig
  · rw [subGet_coffeeFields_varietal, sOkStr_map]
    exact hvar
  · rw [subGet_coffeeFields_process, sOkStr_map]
    exact hproc

lemma equipmentSchemaValid_row (r : Row)
    (hgrinder : optCheckB r.equipment_grinder (fun s => strLenOk s 1 100) = true)
    (hbrewer : optCheckB r.equipment_brewer (fun s => strLenOk s 1 100) = true) :
    equipmentSchemaValid (equipmentFields r) = true := by
  unfold equipmentSchemaValid
  simp only [Bool.and_eq_true]
  refine ⟨⟨?_, ?_⟩, ?_⟩
  · simp only [equipmentFields, List.all_append, Bool.and_eq_true]
    exact ⟨all_optFieldS _ _ _ (fun a => rfl),
      all_optFieldS _ _ _ (fun a => rfl)⟩
  · rw [subGet_equipmentFields_grinder, sOkStr_map]
    exact hgrinder
  · rw [subGet_equipmentFields_brewer, sOkStr_map]
    exact hbrewer

lemma ratingsSchemaValid_row (r : Row)
    (h1 : optCheckB r.result_rating_overall
      (fun n => decide (1 ≤ n) && decide (n ≤ 5)) = true)
    (h2 : optCheckB r.result_rating_fragrance
      (fun n => decide (1 ≤ n) && decide (n ≤ 5)) = true)
    (h3 : optCheckB r.result_rating_aroma
      (fun n => decide (1 ≤ n) && decide (n ≤ 5)) = true)
    (h4 : optCheckB r.result_rating_flavour
      (fun n => decide (1 ≤ n) && decide (n ≤ 5)) = true)
    (h5 : optCheckB r.result_rating_aftertaste
      (fun n => decide (1 ≤ n) && decide (n ≤ 5)) = true)
    (h6 : optCheckB r.result_rating_acidity
      (fun n => decide (1 ≤ n) && decide (n ≤ 5)) = true)
    (h7 : optCheckB r.result_rating_sweetness
      (fun n => decide (1 ≤ n) && decide (n ≤ 5)) = true)
    (h8 : optCheckB r.result_rating_mouthfeel
      (fun n => decide (1 ≤ n) && decide (n ≤ 5)) = true) :
    ratingsSchemaValid (ratingFields r) = true := by
  unfold ratingsSchemaValid
  simp only [Bool.and_eq_true]
  refine ⟨⟨⟨⟨⟨⟨⟨⟨?_, ?_⟩, ?_⟩, ?_⟩, ?_⟩, ?_⟩, ?_⟩, ?_⟩, ?_⟩
  · simp only [ratingFields, List.all_append, Bool.and_eq_true]
    refine ⟨⟨⟨⟨⟨⟨⟨?_, ?_⟩, ?_⟩, ?_⟩, ?_⟩, ?_⟩, ?_⟩, ?_⟩ <;>
      exact all_optFieldL _ _ _ (fun a => rfl)
  · rw [leafGet_ratingFields_overall, lOkRating_map]
    exact h1
  · rw [leafGet_ratingFields_fragrance, lOkRating_map]
    exact h2
  · rw [leafGet_ratingFields_aroma, lOkRating_map]
    exact h3
  · rw [leafGet_ratingFields_flavour, lOkRating_map]
    exact h4
  · rw [leafGet_ratingFields_aftertaste, lOkRating_map]
    exact h5
  · rw [leafGet_ratingFields_acidity, lOkRating_map]
    exact h6
  · rw [leafGet_ratingFields_sweetness, lOkRating_map]
    exact h7
  · rw [leafGet_ratingFields_mouthfeel, lOkRating_map]
    exact h8

lemma resultSchemaValid_row (r : Row)
    (htds : optCheckB r.result_tds (fun q => decide (0 < q)) = true)
    (hey : optCheckB r.result_ey (fun q => decide (0 < q)) = true)
    (hbrix : optCheckB r.result_brix (fun q => decide (0 ≤ q)) = true)
    (htast : optCheckB r.result_tasting_notes (fun s => strLenOk s 1 2000) = true)
    (h1 : optCheckB r.result_rating_overall
      (fun n => decide (1 ≤ n) && decide (n ≤ 5)) = true)
    (h2 : optCheckB r.result_rating_fragrance
      (fun n => decide (1 ≤ n) && decide (n ≤ 5)) = true)
    (h3 : optCheckB r.result_rating_aroma
      (fun n => decide (1 ≤ n) && decide (n ≤ 5)) = true)
    (h4 : optCheckB r.result_rating_flavour
      (fun n => decide (1 ≤ n) && decide (n ≤ 5)) = true)
    (h5 : optCheckB r.result_rating_aftertaste
      (fun n => decide (1 ≤ n) && decide (n ≤ 5)) = true)
    (h6 : optCheckB r.result_rating_acidity
      (fun n => decide (1 ≤ n) && decide (n ≤ 5)) = true)
    (h7 : optCheckB r.result_rating_sweetness
      (fun n => decide (1 ≤ n) && decide (n ≤ 5)) = true)
    (h8 : optCheckB r.result_rating_mouthfeel
      (fun n => decide (1 ≤ n) && decide (n ≤ 5)) = true) :
    resultSchemaValid (resultFields r) = true := by
  unfold resultSchemaValid
  simp only [Bool.and_eq_true]
  refine ⟨⟨⟨⟨⟨?_, ?_⟩, ?_⟩, ?_⟩, ?_⟩, ?_⟩
  · simp only [resultFields, List.all_append, Bool.and_eq_true]
    refine ⟨⟨⟨⟨?_, ?_⟩, ?_⟩, ?_⟩, ?_⟩
    · exact all_optFieldS _ _ _ (fun a => rfl)
    · exact all_optFieldS _ _ _ (fun a => rfl)
    · exact all_optFieldS _ _ _ (fun a => rfl)
    · exact all_optFieldS _ _ _ (fun a => rfl)
    · split
      · simp
      · simp
  · rw [subGet_resultFields_tds, sOkNum_map]
    exact htds
  · rw [subGet_resultFields_ey, sOkNum_map]
    exact hey
  · rw [subGet_resultFields_brix, sOkNum_map]
    exact hbrix
  · rw [subGet_resultFields_tasting, sOkStr_map]
    exact htast
  · rw [subGet_resultFields_ratings]
    by_cases hemp : (ratingFields r).isEmpty = true
    · simp [hemp]
    · simp only [hemp, if_false, Bool.false_eq_true]
      exact ratingsSchemaValid_row r h1 h2 h3 h4 h5 h6 h7 h8

/-- Every stored row with valid cell values and an enum-valid-or-NULL grind
serialises to a schema-valid brew object. -/
lemma brewSchemaValid_row (r : Row) (hr : rowValid r = true)
    (hg : r.grind = none ∨ ∃ g, r.grind = some g ∧ g ∈ GRIND_ENUM) :
    brewSchemaValid (row_to_brew_dict r) = true := by
  unfold rowValid at hr
  simp only [Bool.and_eq_true] at hr
  obtain ⟨hr, hR8⟩ := hr
  obtain ⟨hr, hR7⟩ := hr
  obtain ⟨hr, hR6⟩ := hr
  obtain ⟨hr, hR5⟩ := hr
  obtain ⟨hr, hR4⟩ := hr
  obtain ⟨hr, hR3⟩ := hr
  obtain ⟨hr, hR2⟩ := hr
  obtain ⟨hr, hR1⟩ := hr
  obtain ⟨hr, htast⟩ := hr
  obtain ⟨hr, hbrix⟩ := hr
  obtain ⟨hr, hey⟩ := hr
  obtain ⟨hr, htds⟩ := hr
  obtain ⟨hr, hbrewer⟩ := hr
  obtain ⟨hr, hgrinder⟩ := hr
  obtain ⟨hr, hppm⟩ := hr
  obtain ⟨hr, hproc⟩ := hr
  obtain ⟨hr, hvar⟩ := hr
  obtain ⟨hr, horig⟩ := hr
  obtain ⟨hr, hctype⟩ := hr
  obtain ⟨hr, hroast⟩ := hr
  obtain ⟨hr, hnotes⟩ := hr
  obtain ⟨hr, hdur⟩ := hr
  obtain ⟨hr, htemp⟩ := hr
  obtain ⟨hr, hvol⟩ := hr
  obtain ⟨hr, hmeth⟩ := hr
  obtain ⟨hr, hweight⟩ := hr
  obtain ⟨hr, hdose⟩ := hr
  obtain ⟨hdate, htype⟩ := hr
  unfold brewSchemaValid
  simp only [Bool.and_eq_true]
  refine ⟨⟨⟨⟨⟨⟨⟨⟨⟨⟨⟨⟨⟨⟨?_, ?_⟩, ?_⟩, ?_⟩, ?_⟩, ?_⟩, ?_⟩, ?_⟩, ?_⟩, ?_⟩, ?_⟩,
    ?_⟩, ?_⟩, ?_⟩, ?_⟩
  · -- key closure
    simp only [row_to_brew_dict, List.all_append, Bool.and_eq_true]
    refine ⟨⟨⟨⟨⟨⟨?_, ?_⟩, ?_⟩, ?_⟩, ?_⟩, ?_⟩, ?_⟩
    · simp [reqFields]
    · simp only [optScalarFields, List.all_append, Bool.and_eq_true]
      refine ⟨⟨⟨⟨?_, ?_⟩, ?_⟩, ?_⟩, ?_⟩ <;>
        exact all_optFieldT _ _ _ (fun a => rfl)
    · rcases hg with hgn | ⟨g, hgs, hgm⟩
      · rw [grindFields_none r hgn]
        rfl
      · rw [grindFields_valid r g hgs hgm]
        simp
    · exact all_wrapObj_key _ _ rfl
    · cases hp : r.water_ppm <;> simp [waterPiece, hp]
    · exact all_wrapObj_key _ _ rfl
    · exact all_wrapObj_key _ _ rfl
  · rw [dictGet_row_date]
    exact hdate
  · rw [dictGet_row_type]
    exact htype
  · rw [dictGet_row_dose]
    exact hdose
  · rw [dictGet_row_weight]
    exact hweight
  · rw [dictGet_row_method, okStr_map]
    exact hmeth
  · rw [dictGet_row_volume, okNum_map]
    exact hvol
  · rw [dictGet_row_temp, okNum_map]
    exact htemp
  · rcases hg with hgn | ⟨g, hgs, hgm⟩
    · rw [dictGet_row_grind_none r hgn]
      rfl
    · rw [dictGet_row_grind_valid r g hgs hgm]
      simp [okStr, hgm]
  · rw [dictGet_row_duration, okInt_map]
    exact hdur
  · rw [dictGet_row_notes, okStr_map]
    exact hnotes
  · rw [dictGet_row_coffee]
    by_cases hemp : (coffeeFields r).isEmpty = true
    · simp [hemp]
    · simp only [hemp, if_false, Bool.false_eq_true]
      exact coffeeSchemaValid_row r hroast hctype horig hvar hproc
  · rw [dictGet_row_water]
    cases hp : r.water_ppm with
    | none => rfl
    | some q =>
        rw [hp] at hppm
        simp [waterSchemaValid, subGet_cons, subGet_nil, sOkNum]
        exact of_decide_eq_true hppm
  · rw [dictGet_row_equipment]
    by_cases hemp : (equipmentFields r).isEmpty = true
    · simp [hemp]
    · simp only [hemp, if_false, Bool.false_eq_true]
      exact equipmentSchemaValid_row r hgrinder hbrewer
  · rw [dictGet_row_result]
    by_cases hemp : (resultFields r).isEmpty = true
    · simp [hemp]
    · simp only [hemp, if_false, Bool.false_eq_true]
      exact resultSchemaValid_row r htds hey hbrix htast hR1 hR2 hR3 hR4 hR5
        hR6 hR7 hR8

/-! ## More substring lemmas -/

lemma strContains_left (a b : String) : strContains (a ++ b) a = true := by
  unfold strContains
  rw [string_data_append]
  exact containsB_of_startsWith (startsWithB_append _ _)

lemma strContains_right (a : String) {b n : String}
    (h : strContains b n = true) : strContains (a ++ b) n = true := by
  unfold strContains at h ⊢
  rw [string_data_append]
  exact containsB_append_left _ h

lemma strContains_empty (hay : String) : strContains hay "" = true := by
  unfold strContains
  cases hay.data <;> simp [containsB, startsWithB]

lemma startsWithB_refl (n : List Char) : startsWithB n n = true := by
  induction n with
  | nil => rfl
  | cons a as ih => simp [startsWithB, ih]

lemma strContains_refl (s : String) : strContains s s = true :=
  containsB_of_startsWith (startsWithB_refl s.data)

lemma startsWithB_extend (a : List Char) {n l : List Char}
    (h : startsWithB n l = true) : startsWithB n (l ++ a) = true := by
  induction n generalizing l with
  | nil => rfl
  | cons c t ih =>
      cases l with
      | nil => exact absurd h (by simp [startsWithB])
      | cons c2 t2 =>
          simp only [startsWithB, Bool.and_eq_true] at h ⊢
          exact ⟨h.1, ih h.2⟩

lemma containsB_nil_needle (l : List Char) : containsB [] l = true := by
  cases l <;> simp [containsB, startsWithB]

lemma containsB_append_right (a : List Char) {n l : List Char}
    (h : containsB n l = true) : containsB n (l ++ a) = true := by
  induction l with
  | nil =>
      cases n with
      | nil => exact containsB_nil_needle a
      | cons c t => exact absurd h (by simp [containsB, startsWithB])
  | cons c t ih =>
      simp only [containsB, Bool.or_eq_true] at h
      rcases h with h | h
      · simp only [List.cons_append, containsB, Bool.or_eq_true]
        exact Or.inl (startsWithB_extend a h)
      · simp only [List.cons_append, containsB, Bool.or_eq_true]
        exact Or.inr (ih h)

lemma strContains_ext_right (b : String) {a n : String}
    (h : strContains a n = true) : strContains (a ++ b) n = true := by
  unfold strContains at h ⊢
  rw [string_data_append]
  exact containsB_append_right _ h

/-- Every instantiation of the gate message contains the needle `n` whenever
the constant tail `msgPost` does. -/
lemma v04_msg_contains (x n : String) (h : strContains msgPost n = true) :
    strContains (V04_REQUIRED_MSG x) n = true := by
  unfold V04_REQUIRED_MSG
  exact strContains_right msgPre (strContains_right x h)

/-- The gate message always contains the version label it was built with. -/
lemma v04_msg_contains_version (x : String) :
    strContains (V04_REQUIRED_MSG x) x = true :=
  strContains_append_mid msgPre x msgPost

/-! ## Concrete inputs used by the counterexamples and witnesses -/

/-- A schema-valid v0.4 brew document carrying a present-but-empty
`equipment` sub-object (`equipment: {}` is accepted by the v0.4 schema, as
its own test suite states). -/
def c1Doc : BrewDoc :=
  { date := "2026-02-15T08:30:00Z", type := "pour_over",
    dose_g := 20, water_weight_g := 320,
    method := none, water_volume_ml := none, water_temp_c := none,
    grind := none, duration_s := none, notes := none,
    coffee := none, water := none,
    equipment := some { grinder := none, brewer := none },
    result := none }

/-- A well-formed document exercising every piece of the round trip. -/
def c1WitnessDoc : BrewDoc :=
  { date := "2026-02-19T08:30:00Z", type := "pour_over",
    dose_g := 18, water_weight_g := 280,
    method := some "Hario V60", water_volume_ml := some 300,
    water_temp_c := some 96, grind := some "medium_fine",
    duration_s := some 180, notes := some "slow pour",
    coffee := some
      { roast_date := some "2026-01-20", type := some "blend",
        origin := some ["Ethiopia", "Colombia"],
        varietal := some "Heirloom", process := some "Washed" },
    water := some { ppm := some 100 },
    equipment := some
      { grinder := some "Comandante", brewer := some "V60 02" },
    result := some
      { tds := some 2, ey := some 20, brix := some 1,
        tasting_notes := some "citrus",
        ratings := some
          { overall := some 4, fragrance := some 3, aroma := some 5,
            flavour := some 4, aftertaste := some 3, acidity := some 5,
            sweetness := some 4, mouthfeel := some 3 } } }

/-! ## Claim theorems -/

/-- C1 (counterexample): the round trip is *not* the identity on every
BrewSpec brew document object with an enum-valid grind and no legacy-only
populated fields.  `c1Doc` carries `equipment: {}` (schema-valid, no grind,
no legacy fields); flattening stores only NULL equipment columns, so the
rebuilt document drops the `equipment` key — the key set differs. -/
theorem c1_roundtrip_counterexample :
    insert_brew_dict (docToDict c1Doc) 1 = .ok (rowOf c1Doc 1) ∧
    row_to_brew_dict (rowOf c1Doc 1) ≠ docToDict c1Doc :=
  ⟨insert_brew_dict_docToDict c1Doc 1, by decide⟩

/-- C1 (amended): for every brew document object with an enum-valid grind,
no legacy-only populated fields, and no present-but-content-free sub-object
(each present sub-object has at least one populated field and a present
origin list is non-empty — the latter is already forced by the schema's
`minItems: 1`), flattening through `insert_brew_dict` and rebuilding through
`row_to_brew_dict` reproduces the document exactly: same keys, same values,
same sub-objects, modulo map key ordering (the rebuilt dict is in the
serializer's canonical key order). -/
theorem c1_roundtrip_amended (d : BrewDoc) (newId : Int)
    (h1 : wellFormedDoc d = true) (h2 : grindOkB d = true) :
    (insert_brew_dict (docToDict d) newId).map row_to_brew_dict =
      .ok (docToDict d) := by
  rw [insert_brew_dict_docToDict]
  show Except.ok (row_to_brew_dict (rowOf d newId)) = Except.ok (docToDict d)
  rw [row_to_brew_dict_rowOf d newId h1 h2]

/-- C1 (witness): the amended round trip at a fully-populated document. -/
theorem c1_roundtrip_amended_witness :
    (insert_brew_dict (docToDict c1WitnessDoc) 1).map row_to_brew_dict =
      .ok (docToDict c1WitnessDoc) :=
  c1_roundtrip_amended c1WitnessDoc 1 (by decide) (by decide)

/-- C2: for every stored row, the emitted brew document contains no
null-valued key and no empty sub-object at any depth, and each of the
`coffee`, `water`, `equipment`, `result` and `result.ratings` sub-objects is
present exactly when at least one of its source columns is non-NULL. -/
theorem c2_null_omission (r : Row) :
    noNullsNoEmpty (row_to_brew_dict r) = true ∧
    (dictGet (row_to_brew_dict r) "coffee").isSome =
      (r.coffee_roast_date.isSome || r.coffee_type.isSome ||
       r.coffee_origin.isSome || r.coffee_varietal.isSome ||
       r.coffee_process.isSome) ∧
    (dictGet (row_to_brew_dict r) "water").isSome = r.water_ppm.isSome ∧
    (dictGet (row_to_brew_dict r) "equipment").isSome =
      (r.equipment_grinder.isSome || r.equipment_brewer.isSome) ∧
    (dictGet (row_to_brew_dict r) "result").isSome =
      (r.result_tds.isSome || r.result_ey.isSome || r.result_brix.isSome ||
       r.result_tasting_notes.isSome || ratingsAny r) ∧
    ratingsPresent (row_to_brew_dict r) = ratingsAny r :=
  ⟨noNullsNoEmpty_row r, coffee_presence r, water_presence r,
    equipment_presence r, result_presence r, ratings_presence r⟩

set_option maxRecDepth 40000 in
/-- C3: a parsed document whose version tag is any string other than exactly
`"0.4"` is rejected at the version gate: schema validation never runs, the
table is untouched, and the rejection message names the version found in the
file (the label is the tag itself, `"(unknown)"` when it is empty — either
way the tag is a substring), says it is not supported, spells out the
`tds`/`ey`/`rating` relocations and the seven-value grind enum, and links
the migration reference. -/
theorem c3_version_gate (f : ImportFile) (t : List Row) (startId : Int)
    (d : ParsedDoc) (v : String)
    (hpath : validate_import_path f = none)
    (hext : f.suffix ∈ [".yaml", ".yml", ".json"])
    (hparse : f.parseResult = .parsedDict d)
    (hver : d.version = .vstr v) (hne : v ≠ "0.4") :
    (import_cmd f t startId).result =
      .error (.versionRejected (V04_REQUIRED_MSG (importVersionLabel v))) ∧
    (import_cmd f t startId).table = t ∧
    Stage.schemaValidate ∉ (import_cmd f t startId).ran ∧
    Stage.dbWrite ∉ (import_cmd f t startId).ran ∧
    strContains (V04_REQUIRED_MSG (importVersionLabel v)) v = true ∧
    strContains (V04_REQUIRED_MSG (importVersionLabel v)) "not supported" = true ∧
    strContains (V04_REQUIRED_MSG (importVersionLabel v)) "result.tds" = true ∧
    strContains (V04_REQUIRED_MSG (importVersionLabel v)) "result.ey" = true ∧
    strContains (V04_REQUIRED_MSG (importVersionLabel v)) "result.ratings.overall" = true ∧
    strContains (V04_REQUIRED_MSG (importVersionLabel v))
      "turkish, espresso, fine, medium_fine, medium, medium_coarse, coarse" = true ∧
    strContains (V04_REQUIRED_MSG (importVersionLabel v))
      "https://github.com/coffee-standards/brewspec" = true := by
  have hrun : import_cmd f t startId =
      ⟨.error (.versionRejected (V04_REQUIRED_MSG (importVersionLabel v))), t,
        [.readContent, .parseContent]⟩ := by
    unfold import_cmd
    rw [hpath]
    rw [if_pos hext, hparse]
    simp only [pyStrTag, hver]
    rw [if_pos hne]
  have hversion : strContains (V04_REQUIRED_MSG (importVersionLabel v)) v = true := by
    by_cases hv : v = ""
    · subst hv
      exact strContains_empty _
    · unfold importVersionLabel
      rw [if_neg hv]
      exact v04_msg_contains_version v
  refine ⟨?_, ?_, ?_, ?_, hversion, ?_, ?_, ?_, ?_, ?_, ?_⟩
  · rw [hrun]
  · rw [hrun]
  · rw [hrun]
    show Stage.schemaValidate ∉ [Stage.readContent, Stage.parseContent]
    decide
  · rw [hrun]
    show Stage.dbWrite ∉ [Stage.readContent, Stage.parseContent]
    decide
  · exact v04_msg_contains _ _ (by decide)
  · exact v04_msg_contains _ _ (by decide)
  · exact v04_msg_contains _ _ (by decide)
  · exact v04_msg_contains _ _ (by decide)
  · exact v04_msg_contains _ _ (by decide)
  · exact v04_msg_contains _ _ (by decide)

/-- A v0.3 file as the parser sees it, with an otherwise-valid body. -/
def c3File : ImportFile :=
  { pathParts := ["brews.yaml"], suffix := ".yaml", fileExists := true,
    sizeBytes := 100,
    parseResult := .parsedDict
      { version := .vstr "0.3", brews := [], validationErrors := [] } }

/-- C3 (witness): the gate at a concrete v0.3 file. -/
theorem c3_version_gate_witness :
    (import_cmd c3File [] 1).result =
      .error (.versionRejected (V04_REQUIRED_MSG (importVersionLabel "0.3"))) ∧
    (import_cmd c3File [] 1).table = [] ∧
    Stage.schemaValidate ∉ (import_cmd c3File [] 1).ran ∧
    strContains (V04_REQUIRED_MSG (importVersionLabel "0.3")) "0.3" = true := by
  have h := c3_version_gate c3File [] 1
    { version := .vstr "0.3", brews := [], validationErrors := [] } "0.3"
    rfl (by decide) rfl rfl (by decide)
  exact ⟨h.1, h.2.1, h.2.2.1, h.2.2.2.2.1⟩

/-- C4: the import's multi-row insert is one atomic transaction.  For any
prior table and any schema-valid document's brews (typed brew document
objects), every insert succeeds and the commit appends exactly one row per
brew; and for any raw brews list at all, if any insert fails the transaction
rolls back and the committed table is exactly the prior table — zero rows
persist. -/
theorem c4_atomic_import (t : List Row) (startId : Int) :
    (∀ ds : List BrewDoc,
      ∃ rows, import_transaction t startId (ds.map docToDict) = (t ++ rows, true) ∧
        rows.length = ds.length) ∧
    (∀ (brews : List BrewDict) (e : String),
      insertLoop t startId brews = .error e →
      import_transaction t startId brews = (t, false)) := by
  constructor
  · intro ds
    obtain ⟨s, hs, _⟩ := insertLoop_docs ds t startId
    obtain ⟨extra, hse, hlen⟩ := insertLoop_ok _ _ _ _ hs
    refine ⟨extra, ?_, ?_⟩
    · unfold import_transaction
      rw [hs, hse]
    · rw [hlen, List.length_map]
  · intro brews e h
    unfold import_transaction
    rw [h]

/-- A brews entry whose insertion fails: the empty dict violates the
`NOT NULL` constraint on the `date` column. -/
def c4BadBrews : List BrewDict := [[]]

/-- C4 (witness): a one-document commit and a failing-document rollback at
concrete inputs. -/
theorem c4_atomic_import_witness :
    (∃ rows, import_transaction [] 1 ([c1WitnessDoc].map docToDict) =
      ([] ++ rows, true) ∧ rows.length = 1) ∧
    import_transaction [] 1 c4BadBrews = ([], false) :=
  ⟨(c4_atomic_import [] 1).1 [c1WitnessDoc],
   (c4_atomic_import [] 1).2 c4BadBrews
     "NOT NULL constraint failed: brews.date" rfl⟩

/-- C5: a partial update whose mapping contains any column name outside the
fixed allow-list — the identity or timestamp column, or an arbitrary name —
fails immediately with the assertion error, before any SQL executes, and the
table is unchanged. -/
theorem c5_update_allowlist (brew_id : Int) (updates : List (String × Leaf))
    (t : List GRow) (col : String) (v : Leaf)
    (hmem : (col, v) ∈ updates) (hcol : col ∉ UPDATABLE_COLUMNS) :
    update_brew brew_id updates t =
      .error "Unexpected column names in update dict" ∧
    update_brew_table brew_id updates t = t := by
  have hall : updates.all (fun p => p.1 ∈ UPDATABLE_COLUMNS) = false := by
    cases hb : updates.all (fun p => p.1 ∈ UPDATABLE_COLUMNS) with
    | false => rfl
    | true =>
        have := List.all_eq_true.mp hb (col, v) hmem
        exact absurd (of_decide_eq_true this) hcol
  constructor
  · unfold update_brew
    rw [hall]
    rfl
  · unfold update_brew_table update_brew
    rw [hall]
    rfl

/-- C5 (witness): `evil_col`, the identity column and the timestamp column
each fail against a concrete one-row table. -/
theorem c5_update_allowlist_witness :
    update_brew 1 [("evil_col", .str "x")] [⟨1, []⟩] =
      .error "Unexpected column names in update dict" ∧
    update_brew_table 1 [("evil_col", .str "x")] [⟨1, []⟩] = [⟨1, []⟩] ∧
    update_brew 1 [("id", .num 9)] [⟨1, []⟩] =
      .error "Unexpected column names in update dict" ∧
    update_brew 1 [("date", .str "2026-01-01")] [⟨1, []⟩] =
      .error "Unexpected column names in update dict" :=
  ⟨(c5_update_allowlist 1 _ _ "evil_col" (.str "x") (by decide) (by decide)).1,
   (c5_update_allowlist 1 _ _ "evil_col" (.str "x") (by decide) (by decide)).2,
   (c5_update_allowlist 1 _ _ "id" (.num 9) (by decide) (by decide)).1,
   (c5_update_allowlist 1 _ _ "date" (.str "2026-01-01") (by decide) (by decide)).1⟩

/-- C6 (counterexample): `water_volume_ml` is a nullable optional scalar
column of the stored schema, yet it is not in `UPDATABLE_COLUMNS` — so the
allow-list does not include every optional scalar column. -/
theorem c6_allowlist_counterexample :
    ("water_volume_ml", false) ∈ brewsColumns ∧
    "water_volume_ml" ∉ UPDATABLE_COLUMNS := by decide

/-- C6 (amended): the allow-list excludes the identity, required-field and
timestamp columns (and the legacy ratings blob), includes the optional
scalar columns `method`, `water_temp_c`, `grind`, `duration_s` and `notes`
(but not `water_volume_ml`), and includes every composite sub-field column,
all eight individual rating columns included. -/
theorem c6_allowlist_amended :
    (["id", "date", "type", "dose_g", "water_weight_g",
      "result_ratings"].all (fun c => decide (c ∉ UPDATABLE_COLUMNS))) = true ∧
    (["method", "water_temp_c", "grind", "duration_s",
      "notes"].all (fun c => decide (c ∈ UPDATABLE_COLUMNS))) = true ∧
    "water_volume_ml" ∉ UPDATABLE_COLUMNS ∧
    (["coffee_roast_date", "coffee_type", "coffee_origin", "coffee_varietal",
      "coffee_process", "water_ppm", "equipment_grinder", "equipment_brewer",
      "result_tds", "result_ey", "result_brix", "result_tasting_notes",
      "result_rating_overall", "result_rating_fragrance",
      "result_rating_aroma", "result_rating_flavour",
      "result_rating_aftertaste", "result_rating_acidity",
      "result_rating_sweetness",
      "result_rating_mouthfeel"].all (fun c => decide (c ∈ UPDATABLE_COLUMNS))) = true := by
  decide

/-- An empty but otherwise unobjectionable source file:
`yaml.safe_load("")` yields `None`, not a dict. -/
def c7EmptyFile : ImportFile :=
  { pathParts := ["brews.yaml"], suffix := ".yaml", fileExists := true,
    sizeBytes := 0, parseResult := .notDict }

/-- A traversal path. -/
def c7DotDotFile : ImportFile :=
  { pathParts := ["..", "brews.yaml"], suffix := ".yaml", fileExists := true,
    sizeBytes := 10, parseResult := .notDict }

/-- C7 (counterexample): `validate_import_path` performs no emptiness check
— an existing, traversal-free file of zero bytes passes path validation, so
the import does not require a non-empty file before parsing. -/
theorem c7_path_counterexample :
    validate_import_path c7EmptyFile = none ∧ c7EmptyFile.sizeBytes = 0 := by
  decide

/-- C7 (amended): the path checks that do exist — traversal, existence and
the 10 MiB bound — run before any file content is read or parsed and abort
the import with no side effects; a path that passes them is at most 10 MiB;
and an empty file, which passes path validation, is rejected only after
parsing, by the document-shape check, still before the version gate, schema
validation or any storage write. -/
theorem c7_path_checks_amended :
    (∀ (f : ImportFile) (t : List Row) (startId : Int) (e : PathError),
      validate_import_path f = some e →
      (import_cmd f t startId).result = .error (.pathError e) ∧
      (import_cmd f t startId).table = t ∧
      (import_cmd f t startId).ran = []) ∧
    (∀ f : ImportFile, validate_import_path f = none →
      f.sizeBytes ≤ 10 * 1024 * 1024) ∧
    (∀ (f : ImportFile) (t : List Row) (startId : Int),
      f.fileExists = true → ".." ∉ f.pathParts →
      f.sizeBytes = 0 → f.parseResult = .notDict →
      f.suffix ∈ [".yaml", ".yml", ".json"] →
      (import_cmd f t startId).result = .error .notADocument ∧
      (import_cmd f t startId).table = t ∧
      Stage.schemaValidate ∉ (import_cmd f t startId).ran ∧
      Stage.dbWrite ∉ (import_cmd f t startId).ran) := by
  refine ⟨?_, ?_, ?_⟩
  · intro f t startId e h
    unfold import_cmd
    rw [h]
    exact ⟨rfl, rfl, rfl⟩
  · intro f h
    unfold validate_import_path at h
    split_ifs at h with h1 h2 h3
    all_goals simp_all [MAX_IMPORT_BYTES]
  · intro f t startId hex htrav hsize hparse hext
    have hpath : validate_import_path f = none := by
      unfold validate_import_path
      rw [if_neg htrav, hex]
      simp [MAX_IMPORT_BYTES, hsize]
    have hrun : import_cmd f t startId =
        ⟨.error .notADocument, t, [.readContent, .parseContent]⟩ := by
      unfold import_cmd
      rw [hpath, if_pos hext, hparse]
    refine ⟨?_, ?_, ?_, ?_⟩
    · rw [hrun]
    · rw [hrun]
    · rw [hrun]
      show Stage.schemaValidate ∉ [Stage.readContent, Stage.parseContent]
      decide
    · rw [hrun]
      show Stage.dbWrite ∉ [Stage.readContent, Stage.parseContent]
      decide

/-- C7 (witness): the amended checks at concrete files — a traversal path is
rejected with nothing read, and an empty file aborts at the document-shape
check with the table untouched. -/
theorem c7_path_checks_amended_witness :
    ((import_cmd c7DotDotFile [] 1).result = .error (.pathError .traversal) ∧
     (import_cmd c7DotDotFile [] 1).ran = []) ∧
    c7EmptyFile.sizeBytes ≤ 10 * 1024 * 1024 ∧
    ((import_cmd c7EmptyFile [] 1).result = .error .notADocument ∧
     (import_cmd c7EmptyFile [] 1).table = []) := by
  have h1 := c7_path_checks_amended.1 c7DotDotFile [] 1 .traversal (by decide)
  have h2 := c7_path_checks_amended.2.1 c7EmptyFile (by decide)
  have h3 := c7_path_checks_amended.2.2 c7EmptyFile [] 1 rfl (by decide) rfl rfl
    (by decide)
  exact ⟨⟨h1.1, h1.2.2⟩, h2, h3.1, h3.2.1⟩

/-- What the document-building loop of export.py lines 101–117 would do,
were control ever to reach it (it does not: see `c8_export_typeerror`): for
every stored row with valid cell values whose grind column holds a non-null
value outside the seven-value v0.4 enum, the row-to-document conversion
omits the `grind` key entirely (never emitting an invalid enum member) and
surfaces the raw value under the `_invalid_grind` sentinel; the loop pops
the sentinel and records `(brew id, raw value)` — for any table containing
the row — and the warning line spells out both; the sanitised brew object
is exactly the one of the same row with a NULL grind and passes the
(spec-modelled) v0.4 document schema. -/
theorem grind_warning_loop (r : Row) (g : String)
    (hr : rowValid r = true) (hg : r.grind = some g) (hm : g ∉ GRIND_ENUM) :
    dictGet (row_to_brew_dict r) "grind" = none ∧
    dictGet (row_to_brew_dict r) "_invalid_grind" = some (.leaf (.str g)) ∧
    export_build [r] =
      ([row_to_brew_dict { r with grind := none }], [(r.id, g)]) ∧
    (∀ rows, r ∈ rows → (r.id, g) ∈ (export_build rows).2) ∧
    strContains (warnLine (r.id, g)) (toString r.id) = true ∧
    strContains (warnLine (r.id, g)) g = true ∧
    brewSchemaValid (row_to_brew_dict { r with grind := none }) = true := by
  have hsent := dictGet_row_sentinel_invalid r g hg hm
  refine ⟨dictGet_row_grind_invalid r g hg hm, hsent, ?_, ?_, ?_, ?_, ?_⟩
  · simp only [export_build, hsent, pop_sentinel_invalid r g hg hm]
  · intro rows hmem
    induction rows with
    | nil => cases hmem
    | cons a rest ih =>
        rcases List.mem_cons.mp hmem with h | h
        · subst h
          simp only [export_build, hsent]
          exact List.mem_cons_self _ _
        · simp only [export_build]
          split
          · exact List.mem_cons_of_mem _ (ih h)
          · exact ih h
  · exact strContains_ext_right _ (strContains_ext_right _ (strContains_ext_right _
      (strContains_ext_right _ (strContains_right _ (strContains_refl _)))))
  · exact strContains_ext_right _ (strContains_right _ (strContains_refl g))
  · have hr' : rowValid { r with grind := none } = true := hr
    exact brewSchemaValid_row _ hr' (Or.inl rfl)

/-- Scenario 4's row: a v0.3-style freeform grind under the v0.4 enum. -/
def c8Row : Row :=
  { id := 7, date := "2026-02-15T08:30:00Z", type := "pour_over",
    method := none, dose_g := 20, water_weight_g := 320,
    water_volume_ml := none, water_temp_c := none,
    grind := some "medium-fine", duration_s := none, notes := none,
    coffee_roast_date := none, coffee_type := none, coffee_origin := none,
    coffee_varietal := none, coffee_process := none, water_ppm := none,
    equipment_grinder := none, equipment_brewer := none,
    result_tds := none, result_ey := none, result_brix := none,
    result_tasting_notes := none, result_ratings := none,
    result_rating_overall := none, result_rating_fragrance := none,
    result_rating_aroma := none, result_rating_flavour := none,
    result_rating_aftertaste := none, result_rating_acidity := none,
    result_rating_sweetness := none, result_rating_mouthfeel := none }

/-- The dropped-grind loop behaviour at the concrete row of scenario 4. -/
theorem grind_warning_loop_concrete :
    dictGet (row_to_brew_dict c8Row) "grind" = none ∧
    dictGet (row_to_brew_dict c8Row) "_invalid_grind" =
      some (.leaf (.str "medium-fine")) ∧
    export_build [c8Row] =
      ([row_to_brew_dict { c8Row with grind := none }], [(7, "medium-fine")]) ∧
    strContains (warnLine (7, "medium-fine")) "7" = true ∧
    strContains (warnLine (7, "medium-fine")) "medium-fine" = true ∧
    brewSchemaValid (row_to_brew_dict { c8Row with grind := none }) = true := by
  have h := grind_warning_loop c8Row "medium-fine" (by decide) rfl (by decide)
  exact ⟨h.1, h.2.1, h.2.2.1, h.2.2.2.2.1, h.2.2.2.2.2.1, h.2.2.2.2.2.2⟩

/-- C8: the export operation never surfaces the grind warning — a code bug.
export.py line 71 calls `serialise.validate_export_path(path, fmt=fmt)`
with the keyword argument `fmt`, but the callee (serialise.py line 159)
takes the single parameter `path_str`, so keyword binding fails and every
export invocation raises `TypeError` at its first statement — before any
database access and before the warning loop of lines 101–117: for every
stored table, no document is built and no warning line is emitted. -/
theorem c8_export_typeerror :
    pyKwargsOk validate_export_path_params export_call_kwargs = false ∧
    (∀ t : List Row, export_cmd t = .error .typeError) :=
  ⟨rfl, fun _ => rfl⟩

/-- C9: `validate_date` accepts exactly the two shapes of `DATE_PATTERN`,
and applies the calendar-validity check only to the full-datetime shape:
every bare-date-shaped string is accepted no matter its calendar content
(month 13, day 45 included), while a full-datetime-shaped string that is not
a real datetime is rejected; anything accepted matches one of the two
shapes.  Concretely: `"2026-13-45"` passes, `"2026-02-30T10:00:00Z"` fails,
`"2026-02-15T08:30:00Z"` passes. -/
theorem c9_date_validation :
    (∀ s : String, bareDateL s.data = true → validate_date s = true) ∧
    (∀ s : String, fullDTL s.data = true → strptimeOkL s.data = false →
      validate_date s = false) ∧
    (∀ s : String, validate_date s = true →
      bareDateL s.data = true ∨ fullDTL s.data = true) ∧
    validate_date "2026-13-45" = true ∧
    validate_date "2026-02-30T10:00:00Z" = false ∧
    validate_date "2026-02-15T08:30:00Z" = true := by
  refine ⟨?_, ?_, ?_, by decide, by decide, by decide⟩
  · intro s h
    have hpat : datePatternMatch s = true := by
      unfold datePatternMatch
      rw [h, Bool.or_true]
    have hT := bareDate_no_T h
    unfold validate_date
    simp only [hpat, hT, Bool.not_true]
    rfl
  · intro s h h2
    have hpat : datePatternMatch s = true := by
      unfold datePatternMatch
      rw [h, Bool.true_or]
    have hT := fullDT_has_T h
    unfold validate_date
    simp only [hpat, hT, Bool.not_true]
    simp [h2]
  · intro s h
    cases hb : bareDateL s.data with
    | true => exact Or.inl rfl
    | false =>
        cases hf : fullDTL s.data with
        | true => exact Or.inr rfl
        | false =>
            rw [validate_date, datePatternMatch, hb, hf] at h
            simp at h

/-- C9 (witness): the asymmetry at concrete dates — an impossible bare date
is accepted, an impossible full datetime (2027-02-29, not a leap year) is
rejected. -/
theorem c9_date_validation_witness :
    validate_date "2026-13-45" = true ∧
    validate_date "2027-02-29T00:00:00Z" = false :=
  ⟨c9_date_validation.1 "2026-13-45" (by decide),
   c9_date_validation.2.1 "2027-02-29T00:00:00Z" (by decide) (by decide)⟩

/-- C10: the version gate stringifies the tag before comparing: a document
whose `brewspec_version` is the unquoted YAML number `0.4` (Python
`str(0.4) = "0.4"`) passes the gate and reaches schema validation, where any
rejection is then decided; and a document with no version tag is rejected
with the `"(unknown)"` label, not with an empty version string. -/
theorem c10_version_stringify (f : ImportFile) (t : List Row) (startId : Int)
    (d : ParsedDoc)
    (hpath : validate_import_path f = none)
    (hext : f.suffix ∈ [".yaml", ".yml", ".json"])
    (hparse : f.parseResult = .parsedDict d) :
    (d.version = .vnum "0.4" →
      Stage.schemaValidate ∈ (import_cmd f t startId).ran) ∧
    (d.version = .missing →
      (import_cmd f t startId).result =
        .error (.versionRejected (V04_REQUIRED_MSG "(unknown)"))) := by
  constructor
  · intro hver
    unfold import_cmd
    rw [hpath, if_pos hext, hparse]
    simp only [pyStrTag, hver]
    rw [if_neg (by simp)]
    by_cases hv : d.validationErrors ≠ []
    · rw [if_pos hv]
      show Stage.schemaValidate ∈
        [Stage.readContent, Stage.parseContent, Stage.schemaValidate]
      decide
    · rw [if_neg hv]
      rcases htr : import_transaction t startId d.brews with ⟨t2, ok⟩
      cases ok
      · show Stage.schemaValidate ∈
          [Stage.readContent, Stage.parseContent, Stage.schemaValidate, Stage.dbWrite]
        decide
      · show Stage.schemaValidate ∈
          [Stage.readContent, Stage.parseContent, Stage.schemaValidate, Stage.dbWrite]
        decide
  · intro hver
    unfold import_cmd
    rw [hpath, if_pos hext, hparse]
    simp only [pyStrTag, hver]
    rw [if_pos (by decide)]
    show Except.error (ImportError.versionRejected
      (V04_REQUIRED_MSG (importVersionLabel ""))) = _
    rfl

/-- A file whose version tag is the unquoted YAML scalar `0.4`. -/
def c10NumFile : ImportFile :=
  { pathParts := ["brews.yaml"], suffix := ".yaml", fileExists := true,
    sizeBytes := 50,
    parseResult := .parsedDict
      { version := .vnum "0.4", brews := [], validationErrors := ["brews: []"] } }

/-- A file with no version tag at all. -/
def c10MissingFile : ImportFile :=
  { pathParts := ["brews.yaml"], suffix := ".yaml", fileExists := true,
    sizeBytes := 50,
    parseResult := .parsedDict
      { version := .missing, brews := [], validationErrors := [] } }

/-- C10 (witness): a numeric `0.4` tag reaches schema validation; a missing
tag is labelled `"(unknown)"`. -/
theorem c10_version_stringify_witness :
    Stage.schemaValidate ∈ (import_cmd c10NumFile [] 1).ran ∧
    (import_cmd c10MissingFile [] 1).result =
      .error (.versionRejected (V04_REQUIRED_MSG "(unknown)")) :=
  ⟨(c10_version_stringify c10NumFile [] 1
      { version := .vnum "0.4", brews := [], validationErrors := ["brews: []"] }
      rfl (by decide) rfl).1 rfl,
   (c10_version_stringify c10MissingFile [] 1
      { version := .missing, brews := [], validationErrors := [] }
      rfl (by decide) rfl).2 rfl⟩

end BrewSpec
